import Mathlib

/-!
Verification of the VAD engine and per-session lifecycle state machine of
`res_speech_gdfe.c` (an Asterisk speech driver for Google DialogFlow).

The C code is shallowly embedded: machine integers become `Int`/`Nat`,
`FILE *` handles become `Bool` (open / not open), the side-effecting call
log becomes an explicit list of `(type, event)` records, and the fallible
division in `calculate_audio_level` returns `Option` (`none` models the C
division-by-zero, which is undefined behavior).  External collaborators
(the DialogFlow session library, the filesystem) are modelled as explicit
environment records carrying the outcome the collaborator would produce.

Ghost instrumentation fields (`*_open_attempts`, `*_fclose_count`,
`session_end_events`) count side-effecting calls (`fopen` attempts,
`fclose` calls, end-of-recognition event emissions); they let theorems talk
about "happens at most once" properties without modelling the filesystem.
-/

/-- `enum VAD_STATE` from res_speech_gdfe.c. -/
inductive VAD_STATE where
  | VAD_STATE_START
  | VAD_STATE_SPEAK
  | VAD_STATE_SILENT
deriving DecidableEq, Repr

export VAD_STATE (VAD_STATE_START VAD_STATE_SPEAK VAD_STATE_SILENT)

/-- `enum gdf_call_log_type` from res_speech_gdfe.c. -/
inductive gdf_call_log_type where
  | CALL_LOG_TYPE_SESSION
  | CALL_LOG_TYPE_ENDPOINTER
  | CALL_LOG_TYPE_DIALOGFLOW
deriving DecidableEq, Repr

export gdf_call_log_type (CALL_LOG_TYPE_SESSION CALL_LOG_TYPE_ENDPOINTER CALL_LOG_TYPE_DIALOGFLOW)

/-- Asterisk speech states used by the driver (`AST_SPEECH_STATE_*`). -/
inductive ast_speech_state where
  | AST_SPEECH_STATE_NOT_READY
  | AST_SPEECH_STATE_READY
  | AST_SPEECH_STATE_WAIT
  | AST_SPEECH_STATE_DONE
deriving DecidableEq, Repr

export ast_speech_state (AST_SPEECH_STATE_NOT_READY AST_SPEECH_STATE_READY AST_SPEECH_STATE_WAIT AST_SPEECH_STATE_DONE)

/-- Modelled from the spec: the recognition-backend session status
(`enum dialogflow_session_state` of libdfegrpc, which is not part of this
repository).  The spec says statuses include at least `RUNNING`, `FINISHED`
and `ERROR`; the driver only distinguishes `FINISHED`/`ERROR` from the rest. -/
inductive dialogflow_session_state where
  | DF_STATE_RUNNING
  | DF_STATE_FINISHED
  | DF_STATE_ERROR
deriving DecidableEq, Repr

export dialogflow_session_state (DF_STATE_RUNNING DF_STATE_FINISHED DF_STATE_ERROR)

/-- The mutable per-call fields of `struct gdf_pvt` that the VAD engine,
lifecycle controller and recording sink read or write.  File handles are
`Bool` (`true` = the `FILE *` is non-NULL); `call_log_path` keeps its
string form because the code tests it with `ast_strlen_zero`. -/
structure gdf_pvt where
  vad_state : VAD_STATE
  vad_state_duration : Int
  vad_change_duration : Int
  voice_threshold : Int
  voice_minimum_duration : Int
  silence_minimum_duration : Int
  call_log_open_already_attempted : Bool
  call_log_file_handle : Bool
  utterance_counter : Int
  utterance_preendpointer_recording_open_already_attempted : Bool
  utterance_preendpointer_recording_file_handle : Bool
  utterance_postendpointer_recording_open_already_attempted : Bool
  utterance_postendpointer_recording_file_handle : Bool
  event : String
  language : String
  project_id : String
  session_id : String
  call_log_path : String
  call_logging_context : String
  call_logging_application_name : String
deriving DecidableEq, Repr

/-- The `struct ast_speech` fields the driver touches: the state and the
`AST_SPEECH_SPOKE` / `AST_SPEECH_QUIET` flags. -/
structure ast_speech where
  speech_state : ast_speech_state
  spoke : Bool
  quiet : Bool
deriving DecidableEq, Repr

/-- The `struct gdf_config` toggles consulted by the paths under study. -/
structure gdf_config where
  enable_call_logs : Bool
  enable_preendpointer_recordings : Bool
  enable_postendpointer_recordings : Bool
deriving DecidableEq, Repr

/-- A whole modelled session: pvt + speech object + config snapshot + the
call-log sink contents + ghost instrumentation counters. -/
structure GdfSession where
  pvt : gdf_pvt
  speech : ast_speech
  config : gdf_config
  call_log : List (gdf_call_log_type × String)
  pre_open_attempts : Nat
  post_open_attempts : Nat
  call_log_open_attempts : Nat
  pre_fclose_count : Nat
  post_fclose_count : Nat
  session_end_events : Nat
deriving DecidableEq, Repr

/-- Environment for one `gdf_write` call: what the backend and filesystem
would answer. -/
structure WriteEnv where
  start_recognition_fails : Bool
  write_audio_state : dialogflow_session_state
  response_count : Int
  pre_open_succeeds : Bool
  post_open_succeeds : Bool
deriving DecidableEq, Repr

/-- Environment for one `gdf_start` call. -/
structure StartEnv where
  recognize_event_fails : Bool
  computed_call_log_path : String
  call_log_open_succeeds : Bool
deriving DecidableEq, Repr

/-- `calculate_audio_level(slin, len)`: sum of `abs(sample)` over the first
`len` entries, divided by `len`.  The C function has no guard: when
`len == 0` the division `sum / len` is undefined behavior, modelled as
`none`.  In C `abs` of the `int`-promoted sample is exact (|-32768| = 32768),
so `Int.natAbs` is faithful.  The division truncates; the numerator is
non-negative, so `Nat` floor division matches C truncation. -/
def calculate_audio_level (slin : List Int) : Option Nat :=
  if slin.length = 0 then none
  else some ((slin.map Int.natAbs).sum / slin.length)

/-- The argument `gdf_write` passes to `calculate_audio_level`: the call is
`calculate_audio_level((short *)data, len)` where `len` is the frame length
in BYTES, so the estimator walks `len` (not `len/2`) shorts starting at the
frame pointer.  `mem` is the memory at the frame pointer (the frame's
`len / 2` samples followed by whatever lies after them). -/
def gdf_write_avg_level (mem : List Int) (len : Nat) : Option Nat :=
  calculate_audio_level (mem.take len)

/-- `call_log_enabled_for_pvt`: call logs globally enabled and this pvt has
an open call-log file. -/
def call_log_enabled_for_pvt (s : GdfSession) : Bool :=
  s.config.enable_call_logs && s.pvt.call_log_file_handle

/-- `gdf_log_call_event`: append one record to the call log when logging is
enabled for this pvt, otherwise do nothing. -/
def gdf_log_call_event (s : GdfSession) (ty : gdf_call_log_type) (ev : String) : GdfSession :=
  if call_log_enabled_for_pvt s then { s with call_log := s.call_log ++ [(ty, ev)] } else s

/-- `write_end_of_recognition_call_event`: emits the SESSION `end` event.
The ghost counter counts every emission (the sink itself may drop it when
logging is disabled). -/
def write_end_of_recognition_call_event (s : GdfSession) : GdfSession :=
  gdf_log_call_event { s with session_end_events := s.session_end_events + 1 }
    CALL_LOG_TYPE_SESSION "end"

/-- `close_preendpointed_audio_recording`: `fclose` the pre-endpoint handle
if it is open (and NULL it), then log `pre_recording_stop` unconditionally
(the log call is outside the handle check in the source). -/
def close_preendpointed_audio_recording (s : GdfSession) : GdfSession :=
  let s :=
    if s.pvt.utterance_preendpointer_recording_file_handle then
      { s with
          pvt := { s.pvt with utterance_preendpointer_recording_file_handle := false },
          pre_fclose_count := s.pre_fclose_count + 1 }
    else s
  gdf_log_call_event s CALL_LOG_TYPE_ENDPOINTER "pre_recording_stop"

/-- `close_postendpointed_audio_recording`: same shape as the pre-endpoint
close, for the post-endpoint handle. -/
def close_postendpointed_audio_recording (s : GdfSession) : GdfSession :=
  let s :=
    if s.pvt.utterance_postendpointer_recording_file_handle then
      { s with
          pvt := { s.pvt with utterance_postendpointer_recording_file_handle := false },
          post_fclose_count := s.post_fclose_count + 1 }
    else s
  gdf_log_call_event s CALL_LOG_TYPE_ENDPOINTER "post_recording_stop"

/-- `gdf_stop_recognition`: close both recordings, force the speech object
to `AST_SPEECH_STATE_DONE`, write the end-of-recognition event. -/
def gdf_stop_recognition (s : GdfSession) : GdfSession :=
  let s := close_preendpointed_audio_recording s
  let s := close_postendpointed_audio_recording s
  let s := { s with speech := { s.speech with speech_state := AST_SPEECH_STATE_DONE } }
  write_end_of_recognition_call_event s

/-- `open_preendpointed_recording_file`: marks the open as attempted FIRST,
then tries `fopen`; on success logs `pre_recording_start` and stores the
handle.  The ghost counter counts `fopen` attempts. -/
def open_preendpointed_recording_file (s : GdfSession) (env : WriteEnv) : GdfSession :=
  let s :=
    { s with
        pvt := { s.pvt with utterance_preendpointer_recording_open_already_attempted := true },
        pre_open_attempts := s.pre_open_attempts + 1 }
  if env.pre_open_succeeds then
    let s := gdf_log_call_event s CALL_LOG_TYPE_ENDPOINTER "pre_recording_start"
    { s with pvt := { s.pvt with utterance_preendpointer_recording_file_handle := true } }
  else s

/-- `open_postendpointed_recording_file`, mirroring the pre-endpoint open. -/
def open_postendpointed_recording_file (s : GdfSession) (env : WriteEnv) : GdfSession :=
  let s :=
    { s with
        pvt := { s.pvt with utterance_postendpointer_recording_open_already_attempted := true },
        post_open_attempts := s.post_open_attempts + 1 }
  if env.post_open_succeeds then
    let s := gdf_log_call_event s CALL_LOG_TYPE_ENDPOINTER "post_recording_start"
    { s with pvt := { s.pvt with utterance_postendpointer_recording_file_handle := true } }
  else s

/-- `maybe_record_audio`: the recording gate run on every forwarded frame.
The `currently_recording` / `already_attempted` locals start at 0 and are
populated from the pvt only when `(enable_post || enable_pre)` AND the
call-log path is non-empty — with an empty path the gate never sees the
pvt flags.  Audio bytes are not modelled; only the open attempts, handles
and events are. -/
def maybe_record_audio (s : GdfSession) (env : WriteEnv) (current_vad_state : VAD_STATE) :
    GdfSession :=
  let enable_pre := s.config.enable_preendpointer_recordings
  let enable_post := s.config.enable_postendpointer_recordings
  let have_call_log_path := !(s.pvt.call_log_path == "")
  let read_gate := (enable_post || enable_pre) && have_call_log_path
  let currently_recording_preendpointed_audio :=
    read_gate && s.pvt.utterance_preendpointer_recording_file_handle
  let already_attempted_open_for_preendpointed_audio :=
    read_gate && s.pvt.utterance_preendpointer_recording_open_already_attempted
  let currently_recording_postendpointed_audio :=
    read_gate && s.pvt.utterance_postendpointer_recording_file_handle
  let already_attempted_open_for_postendpointed_audio :=
    read_gate && s.pvt.utterance_postendpointer_recording_open_already_attempted
  let s :=
    if enable_pre &&
        (!currently_recording_preendpointed_audio &&
         !already_attempted_open_for_preendpointed_audio) then
      open_preendpointed_recording_file s env
    else s
  if enable_post && (current_vad_state == VAD_STATE_SPEAK) &&
      (!currently_recording_postendpointed_audio &&
       !already_attempted_open_for_postendpointed_audio) then
    open_postendpointed_recording_file s env
  else s

/-- `are_currently_recording_pre_endpointed_audio`. -/
def are_currently_recording_pre_endpointed_audio (s : GdfSession) : Bool :=
  s.pvt.utterance_preendpointer_recording_file_handle

/-- The `change_duration` update of `gdf_write` (lines 550-562): a frame at
or above the threshold opposes every state but SPEAK; a frame below the
threshold opposes only SPEAK; opposing frames accumulate, agreeing frames
reset to 0. -/
def vad_change_update (vad_state : VAD_STATE) (change_duration : Int) (avg_level : Nat)
    (threshold datams : Int) : Int :=
  if (avg_level : Int) ≥ threshold then
    if vad_state ≠ VAD_STATE_SPEAK then change_duration + datams else 0
  else
    if vad_state ≠ VAD_STATE_SPEAK then 0 else change_duration + datams

/-- Result of the transition block of `gdf_write` (lines 564-581). -/
structure VadTransition where
  vad_state : VAD_STATE
  cur_duration : Int
  change_duration : Int
  logged_event : Option String
deriving DecidableEq, Repr

/-- The transition block of `gdf_write`: a single if / else-if on the
pre-update state, so at most one transition commits per frame. -/
def vad_transition (vad_state : VAD_STATE) (cur_duration change_duration : Int)
    (voice_duration silence_duration : Int) : VadTransition :=
  match vad_state with
  | VAD_STATE_START =>
      if change_duration ≥ voice_duration then
        ⟨VAD_STATE_SPEAK, 0, 0, some "start_of_speech"⟩
      else ⟨VAD_STATE_START, cur_duration, change_duration, none⟩
  | VAD_STATE_SPEAK =>
      if change_duration ≥ silence_duration then
        ⟨VAD_STATE_SILENT, 0, 0, some "end_of_speech"⟩
      else ⟨VAD_STATE_SPEAK, cur_duration, change_duration, none⟩
  | VAD_STATE_SILENT => ⟨VAD_STATE_SILENT, cur_duration, change_duration, none⟩

/-- Elapsed milliseconds of a frame of `len` bytes: `datasamples = len / 2`
(2 bytes per slin sample), `datams = datasamples / 8` (8 samples per ms). -/
def gdf_write_datams (len : Nat) : Int :=
  ((len / 2) / 8 : Nat)

/-- The VAD computation of `gdf_write` (lines 547-581) as a value: the new
state, both duration counters, and the endpointer event it logs. -/
def gdf_write_vad_result (s : GdfSession) (avg_level : Nat) (len : Nat) : VadTransition :=
  let datams := gdf_write_datams len
  vad_transition s.pvt.vad_state (s.pvt.vad_state_duration + datams)
    (vad_change_update s.pvt.vad_state s.pvt.vad_change_duration avg_level
      s.pvt.voice_threshold datams)
    s.pvt.voice_minimum_duration s.pvt.silence_minimum_duration

/-- Lines 583-587 plus the in-block event logging: store the VAD outcome
into the pvt and emit the transition event if one committed. -/
def gdf_write_commit_vad (s : GdfSession) (t : VadTransition) : GdfSession :=
  let s :=
    { s with
        pvt :=
          { s.pvt with
              vad_state := t.vad_state,
              vad_state_duration := t.cur_duration,
              vad_change_duration := t.change_duration } }
  match t.logged_event with
  | some ev => gdf_log_call_event s CALL_LOG_TYPE_ENDPOINTER ev
  | none => s

/-- Lines 595-634: start the exchange on the committed speech-start
transition (stopping everything if that fails), then — outside PRE_SPEECH —
record and forward the frame and react to a terminal backend status; inside
PRE_SPEECH feed the pre-endpoint recorder if it is already open.
`orig_vad_state` / `vad_state` are the local variables of the source.
This is the non-PRE_SPEECH part (lines 602-623): record, forward to the
exchange, latch the SPOKE/QUIET flags, stop everything on a terminal
backend status. -/
def gdf_write_forward_tail (s : GdfSession) (vad_state : VAD_STATE) (env : WriteEnv) :
    GdfSession :=
  let s := maybe_record_audio s env vad_state
  let s :=
    if !s.speech.spoke && decide (env.response_count > 0) then
      { s with speech := { s.speech with quiet := true, spoke := true } }
    else s
  if env.write_audio_state = DF_STATE_FINISHED ∨ env.write_audio_state = DF_STATE_ERROR then
    gdf_stop_recognition s
  else s

/-- Lines 595-634 assembled: start the exchange on the committed
speech-start transition (stopping everything if that fails), then run the
forwarding tail outside PRE_SPEECH, or feed the already-open pre-endpoint
recorder inside PRE_SPEECH. -/
def gdf_write_forward (s : GdfSession) (orig_vad_state vad_state : VAD_STATE)
    (env : WriteEnv) : GdfSession :=
  let s :=
    if vad_state = VAD_STATE_SPEAK ∧ orig_vad_state = VAD_STATE_START then
      if env.start_recognition_fails then gdf_stop_recognition s else s
    else s
  if vad_state ≠ VAD_STATE_START then
    gdf_write_forward_tail s vad_state env
  else
    if are_currently_recording_pre_endpointed_audio s then
      maybe_record_audio s env vad_state
    else s

/-- The body of `gdf_write` after the audio level has been computed
(everything in the source after line 549).  `avg_level` is the value
`calculate_audio_level` returned; `len` is the byte length of the frame;
`env` carries the backend and filesystem outcomes for this call. -/
def gdf_write_with_level (s : GdfSession) (avg_level : Nat) (len : Nat) (env : WriteEnv) :
    GdfSession :=
  let t := gdf_write_vad_result s avg_level len
  gdf_write_forward (gdf_write_commit_vad s t) s.pvt.vad_state t.vad_state env

/-- `gdf_write(speech, data, len)`.  `mem` is the memory at the frame
pointer (samples); `len` is in bytes.  The audio level call reads `len`
shorts (the source passes the byte count); a zero divisor there is the C
division-by-zero, propagated as `none`. -/
def gdf_write (s : GdfSession) (mem : List Int) (len : Nat) (env : WriteEnv) :
    Option GdfSession :=
  match gdf_write_avg_level mem len with
  | none => none
  | some avg_level => some (gdf_write_with_level s avg_level len env)

/-- `should_start_call_log`: not yet attempted and enabled in config. -/
def should_start_call_log (s : GdfSession) : Bool :=
  !s.pvt.call_log_open_already_attempted && s.config.enable_call_logs

/-- `start_call_log`: mark attempted first, compute the log path (the
result of template substitution, supplied by the environment), then — only
when the computed path is non-empty — attempt the `fopen` (ghost-counted)
and store the handle on success. -/
def start_call_log (s : GdfSession) (env : StartEnv) : GdfSession :=
  let s := { s with pvt := { s.pvt with call_log_open_already_attempted := true } }
  let s := { s with pvt := { s.pvt with call_log_path := env.computed_call_log_path } }
  if !(s.pvt.call_log_path == "") then
    let s := { s with call_log_open_attempts := s.call_log_open_attempts + 1 }
    if env.call_log_open_succeeds then
      { s with pvt := { s.pvt with call_log_file_handle := true } }
    else s
  else s

/-- `log_endpointer_start_event`: logs the ENDPOINTER `start` event with the
current thresholds (the attribute values are not modelled). -/
def log_endpointer_start_event (s : GdfSession) : GdfSession :=
  gdf_log_call_event s CALL_LOG_TYPE_ENDPOINTER "start"

/-- `gdf_start(speech)`: capture and clear the pending event, reset the VAD
state and both duration counters, bump `utterance_counter`; maybe start the
call log; write the SESSION/ENDPOINTER `start` events; then either run the
one-shot recognize-event exchange (non-empty event) or become READY.
This is the prelude: everything before the event dispatch. -/
def gdf_start_prelude (s : GdfSession) (env : StartEnv) : GdfSession :=
  let s :=
    { s with
        pvt :=
          { s.pvt with
              event := "",
              vad_state := VAD_STATE_START,
              vad_state_duration := 0,
              vad_change_duration := 0,
              utterance_counter := s.pvt.utterance_counter + 1 } }
  let s := if should_start_call_log s then start_call_log s env else s
  let s := gdf_log_call_event s CALL_LOG_TYPE_SESSION "start"
  log_endpointer_start_event s

/-- `gdf_start(speech)` assembled: the prelude, then either the one-shot
recognize-event exchange (non-empty pending event; finalize on success,
NOT_READY on failure) or the transition to READY for audio streaming. -/
def gdf_start (s : GdfSession) (env : StartEnv) : GdfSession :=
  let ev := s.pvt.event
  let s := gdf_start_prelude s env
  if ev ≠ "" then
    if env.recognize_event_fails then
      { s with speech := { s.speech with speech_state := AST_SPEECH_STATE_NOT_READY } }
    else
      gdf_stop_recognition s
  else
    { s with speech := { s.speech with speech_state := AST_SPEECH_STATE_READY } }

/-- C `isspace` on the default locale: the six standard whitespace chars. -/
def c_isspace (c : Char) : Bool :=
  c = ' ' || c = '\t' || c = '\n' || c = '\x0b' || c = '\x0c' || c = '\r'

/-- Value of the longest leading digit run, accumulating left to right
(the conversion `sscanf("%d")` performs). -/
def digits_value : List Char → Nat → Nat
  | c :: rest, acc =>
      if c.isDigit then digits_value rest (acc * 10 + (c.toNat - 48)) else acc
  | [], acc => acc

/-- Unsigned part of `%d`: requires at least one digit, consumes the run. -/
def parse_unsigned_decimal (cs : List Char) : Option Nat :=
  match cs with
  | c :: _ => if c.isDigit then some (digits_value cs 0) else none
  | [] => none

/-- `sscanf(value, "%d", &i) == 1` and the converted value: optional
whitespace, optional sign, at least one digit; trailing characters are
ignored.  `none` models a conversion count of 0. -/
def sscanf_d (value : String) : Option Int :=
  let cs := value.toList.dropWhile c_isspace
  match cs with
  | '-' :: rest => (parse_unsigned_decimal rest).map (fun n => -(n : Int))
  | '+' :: rest => (parse_unsigned_decimal rest).map (fun n => (n : Int))
  | _ => (parse_unsigned_decimal cs).map (fun n => (n : Int))

/-- `strcasecmp(a, b) == 0`: ASCII case-insensitive equality. -/
def strcasecmp_eq (a b : String) : Bool :=
  a.toList.map Char.toLower == b.toList.map Char.toLower

/-- The property-name string constants of the driver. -/
def GDF_PROP_SESSION_ID_NAME : String := "session_id"

def GDF_PROP_ALTERNATE_SESSION_NAME : String := "name"

def GDF_PROP_PROJECT_ID_NAME : String := "project_id"

def GDF_PROP_LANGUAGE_NAME : String := "language"

def GDF_PROP_LOG_CONTEXT : String := "log_context"

def GDF_PROP_ALTERNATE_LOG_CONTEXT : String := "logContext"

def GDF_PROP_APPLICATION_CONTEXT : String := "application"

def VAD_PROP_VOICE_THRESHOLD : String := "voice_threshold"

def VAD_PROP_VOICE_DURATION : String := "voice_duration"

def VAD_PROP_SILENCE_DURATION : String := "silence_duration"

/-- `gdf_change(speech, name, value)`: the administrative set-property
dispatch.  Returns the C return code and the updated pvt.  `ast_strlen_zero`
is the empty-string test (a NULL value is not modelled); numeric tunables
go through `sscanf("%d")`. -/
def gdf_change (pvt : gdf_pvt) (name value : String) : Int × gdf_pvt :=
  if strcasecmp_eq name GDF_PROP_SESSION_ID_NAME ||
      strcasecmp_eq name GDF_PROP_ALTERNATE_SESSION_NAME then
    if value == "" then (-1, pvt)
    else (0, { pvt with session_id := value })
  else if strcasecmp_eq name GDF_PROP_PROJECT_ID_NAME then
    if value == "" then (-1, pvt)
    else (0, { pvt with project_id := value })
  else if strcasecmp_eq name GDF_PROP_LANGUAGE_NAME then
    (0, { pvt with language := value })
  else if strcasecmp_eq name GDF_PROP_LOG_CONTEXT ||
      strcasecmp_eq name GDF_PROP_ALTERNATE_LOG_CONTEXT then
    (0, { pvt with call_logging_context := value })
  else if strcasecmp_eq name GDF_PROP_APPLICATION_CONTEXT then
    (0, { pvt with call_logging_application_name := value })
  else if strcasecmp_eq name VAD_PROP_VOICE_THRESHOLD then
    if value == "" then (-1, pvt)
    else
      match sscanf_d value with
      | some i => (0, { pvt with voice_threshold := i })
      | none => (-1, pvt)
  else if strcasecmp_eq name VAD_PROP_VOICE_DURATION then
    if value == "" then (-1, pvt)
    else
      match sscanf_d value with
      | some i => (0, { pvt with voice_minimum_duration := i })
      | none => (-1, pvt)
  else if strcasecmp_eq name VAD_PROP_SILENCE_DURATION then
    if value == "" then (-1, pvt)
    else
      match sscanf_d value with
      | some i => (0, { pvt with silence_minimum_duration := i })
      | none => (-1, pvt)
  else (-1, pvt)

/-- One externally-triggered operation on a session, with its environment. -/
inductive GdfOp where
  | op_start (env : StartEnv)
  | op_write (mem : List Int) (len : Nat) (env : WriteEnv)
  | op_stop
deriving Repr

/-- Apply one operation; `gdf_write` on an empty frame is the modelled
undefined behavior, propagated as `none`. -/
def apply_op (s : GdfSession) : GdfOp → Option GdfSession
  | GdfOp.op_start env => some (gdf_start s env)
  | GdfOp.op_write mem len env => gdf_write s mem len env
  | GdfOp.op_stop => some (gdf_stop_recognition s)

/-- Run a list of operations left to right. -/
def run_ops (s : GdfSession) : List GdfOp → Option GdfSession
  | [] => some s
  | op :: rest =>
      match apply_op s op with
      | none => none
      | some s' => run_ops s' rest

/-- Count of one event kind in a session's call log. -/
def count_log_events (s : GdfSession) (ty : gdf_call_log_type) (ev : String) : Nat :=
  s.call_log.count (ty, ev)

/-- A quiescent session used as concrete input by witnesses: thresholds are
the ones named by the spec's worked VAD example. -/
def default_pvt : gdf_pvt where
  vad_state := VAD_STATE_START
  vad_state_duration := 0
  vad_change_duration := 0
  voice_threshold := 100
  voice_minimum_duration := 40
  silence_minimum_duration := 1000
  call_log_open_already_attempted := false
  call_log_file_handle := false
  utterance_counter := 0
  utterance_preendpointer_recording_open_already_attempted := false
  utterance_preendpointer_recording_file_handle := false
  utterance_postendpointer_recording_open_already_attempted := false
  utterance_postendpointer_recording_file_handle := false
  event := ""
  language := "en"
  project_id := "p"
  session_id := "s"
  call_log_path := ""
  call_logging_context := ""
  call_logging_application_name := "unknown"

/-- Default speech object: ready, no flags. -/
def default_speech : ast_speech where
  speech_state := AST_SPEECH_STATE_READY
  spoke := false
  quiet := false

/-- Default config: everything off. -/
def default_config : gdf_config where
  enable_call_logs := false
  enable_preendpointer_recordings := false
  enable_postendpointer_recordings := false

/-- Default whole-session value. -/
def default_session : GdfSession where
  pvt := default_pvt
  speech := default_speech
  config := default_config
  call_log := []
  pre_open_attempts := 0
  post_open_attempts := 0
  call_log_open_attempts := 0
  pre_fclose_count := 0
  post_fclose_count := 0
  session_end_events := 0

/-- A benign backend/filesystem environment: everything succeeds, the
exchange keeps running, no responses yet. -/
def benign_env : WriteEnv where
  start_recognition_fails := false
  write_audio_state := DF_STATE_RUNNING
  response_count := 0
  pre_open_succeeds := false
  post_open_succeeds := false

/-- `gdf_log_call_event` never touches the pvt. -/
theorem gdf_log_call_event_pvt (s : GdfSession) (ty : gdf_call_log_type) (ev : String) :
    (gdf_log_call_event s ty ev).pvt = s.pvt := by
  unfold gdf_log_call_event; split <;> rfl

/-- `gdf_log_call_event` never touches the speech object. -/
theorem gdf_log_call_event_speech (s : GdfSession) (ty : gdf_call_log_type) (ev : String) :
    (gdf_log_call_event s ty ev).speech = s.speech := by
  unfold gdf_log_call_event; split <;> rfl

/-- `gdf_log_call_event` never touches config or the ghost counters. -/
theorem gdf_log_call_event_ghost (s : GdfSession) (ty : gdf_call_log_type) (ev : String) :
    (gdf_log_call_event s ty ev).config = s.config ∧
    (gdf_log_call_event s ty ev).pre_open_attempts = s.pre_open_attempts ∧
    (gdf_log_call_event s ty ev).post_open_attempts = s.post_open_attempts ∧
    (gdf_log_call_event s ty ev).call_log_open_attempts = s.call_log_open_attempts ∧
    (gdf_log_call_event s ty ev).pre_fclose_count = s.pre_fclose_count ∧
    (gdf_log_call_event s ty ev).post_fclose_count = s.post_fclose_count ∧
    (gdf_log_call_event s ty ev).session_end_events = s.session_end_events := by
  unfold gdf_log_call_event; split <;> simp

/-- Effect summary of `write_end_of_recognition_call_event`: bumps the
end-event counter, touches nothing else outside the log. -/
theorem write_end_of_recognition_call_event_effects (s : GdfSession) :
    (write_end_of_recognition_call_event s).pvt = s.pvt ∧
    (write_end_of_recognition_call_event s).speech = s.speech ∧
    (write_end_of_recognition_call_event s).config = s.config ∧
    (write_end_of_recognition_call_event s).session_end_events = s.session_end_events + 1 ∧
    (write_end_of_recognition_call_event s).pre_fclose_count = s.pre_fclose_count ∧
    (write_end_of_recognition_call_event s).post_fclose_count = s.post_fclose_count ∧
    (write_end_of_recognition_call_event s).pre_open_attempts = s.pre_open_attempts ∧
    (write_end_of_recognition_call_event s).post_open_attempts = s.post_open_attempts ∧
    (write_end_of_recognition_call_event s).call_log_open_attempts = s.call_log_open_attempts := by
  unfold write_end_of_recognition_call_event gdf_log_call_event; split <;> simp

/-- Effect summary of `close_preendpointed_audio_recording`: the handle is
NULLed, an `fclose` happens exactly when one was open, the "already
attempted" flag and everything unrelated survive. -/
theorem close_preendpointed_effects (s : GdfSession) :
    (close_preendpointed_audio_recording s).pvt.utterance_preendpointer_recording_file_handle = false ∧
    (close_preendpointed_audio_recording s).pre_fclose_count
      = s.pre_fclose_count
        + (if s.pvt.utterance_preendpointer_recording_file_handle then 1 else 0) ∧
    (close_preendpointed_audio_recording s).pvt.utterance_preendpointer_recording_open_already_attempted
      = s.pvt.utterance_preendpointer_recording_open_already_attempted ∧
    (close_preendpointed_audio_recording s).pvt.utterance_postendpointer_recording_file_handle
      = s.pvt.utterance_postendpointer_recording_file_handle ∧
    (close_preendpointed_audio_recording s).pvt.utterance_postendpointer_recording_open_already_attempted
      = s.pvt.utterance_postendpointer_recording_open_already_attempted ∧
    (close_preendpointed_audio_recording s).pvt.call_log_open_already_attempted
      = s.pvt.call_log_open_already_attempted ∧
    (close_preendpointed_audio_recording s).pvt.call_log_file_handle = s.pvt.call_log_file_handle ∧
    (close_preendpointed_audio_recording s).pvt.call_log_path = s.pvt.call_log_path ∧
    (close_preendpointed_audio_recording s).pvt.vad_state = s.pvt.vad_state ∧
    (close_preendpointed_audio_recording s).speech = s.speech ∧
    (close_preendpointed_audio_recording s).config = s.config ∧
    (close_preendpointed_audio_recording s).session_end_events = s.session_end_events ∧
    (close_preendpointed_audio_recording s).post_fclose_count = s.post_fclose_count ∧
    (close_preendpointed_audio_recording s).pre_open_attempts = s.pre_open_attempts ∧
    (close_preendpointed_audio_recording s).post_open_attempts = s.post_open_attempts ∧
    (close_preendpointed_audio_recording s).call_log_open_attempts = s.call_log_open_attempts := by
  unfold close_preendpointed_audio_recording gdf_log_call_event call_log_enabled_for_pvt
  by_cases h : s.pvt.utterance_preendpointer_recording_file_handle <;>
    simp [h] <;> split <;> simp_all

/-- Effect summary of `close_postendpointed_audio_recording`. -/
theorem close_postendpointed_effects (s : GdfSession) :
    (close_postendpointed_audio_recording s).pvt.utterance_postendpointer_recording_file_handle = false ∧
    (close_postendpointed_audio_recording s).post_fclose_count
      = s.post_fclose_count
        + (if s.pvt.utterance_postendpointer_recording_file_handle then 1 else 0) ∧
    (close_postendpointed_audio_recording s).pvt.utterance_postendpointer_recording_open_already_attempted
      = s.pvt.utterance_postendpointer_recording_open_already_attempted ∧
    (close_postendpointed_audio_recording s).pvt.utterance_preendpointer_recording_file_handle
      = s.pvt.utterance_preendpointer_recording_file_handle ∧
    (close_postendpointed_audio_recording s).pvt.utterance_preendpointer_recording_open_already_attempted
      = s.pvt.utterance_preendpointer_recording_open_already_attempted ∧
    (close_postendpointed_audio_recording s).pvt.call_log_open_already_attempted
      = s.pvt.call_log_open_already_attempted ∧
    (close_postendpointed_audio_recording s).pvt.call_log_file_handle = s.pvt.call_log_file_handle ∧
    (close_postendpointed_audio_recording s).pvt.call_log_path = s.pvt.call_log_path ∧
    (close_postendpointed_audio_recording s).pvt.vad_state = s.pvt.vad_state ∧
    (close_postendpointed_audio_recording s).speech = s.speech ∧
    (close_postendpointed_audio_recording s).config = s.config ∧
    (close_postendpointed_audio_recording s).session_end_events = s.session_end_events ∧
    (close_postendpointed_audio_recording s).pre_fclose_count = s.pre_fclose_count ∧
    (close_postendpointed_audio_recording s).pre_open_attempts = s.pre_open_attempts ∧
    (close_postendpointed_audio_recording s).post_open_attempts = s.post_open_attempts ∧
    (close_postendpointed_audio_recording s).call_log_open_attempts = s.call_log_open_attempts := by
  unfold close_postendpointed_audio_recording gdf_log_call_event call_log_enabled_for_pvt
  by_cases h : s.pvt.utterance_postendpointer_recording_file_handle <;>
    simp [h] <;> split <;> simp_all

/-- Effect summary of `gdf_stop_recognition`: both recordings closed (one
`fclose` per open handle), speech forced to DONE, exactly one end-of-
recognition event emitted; VAD fields, flags and open-attempt counters
untouched. -/
theorem gdf_stop_recognition_effects (s : GdfSession) :
    (gdf_stop_recognition s).speech.speech_state = AST_SPEECH_STATE_DONE ∧
    (gdf_stop_recognition s).pvt.utterance_preendpointer_recording_file_handle = false ∧
    (gdf_stop_recognition s).pvt.utterance_postendpointer_recording_file_handle = false ∧
    (gdf_stop_recognition s).session_end_events = s.session_end_events + 1 ∧
    (gdf_stop_recognition s).pre_fclose_count
      = s.pre_fclose_count
        + (if s.pvt.utterance_preendpointer_recording_file_handle then 1 else 0) ∧
    (gdf_stop_recognition s).post_fclose_count
      = s.post_fclose_count
        + (if s.pvt.utterance_postendpointer_recording_file_handle then 1 else 0) ∧
    (gdf_stop_recognition s).pvt.utterance_preendpointer_recording_open_already_attempted
      = s.pvt.utterance_preendpointer_recording_open_already_attempted ∧
    (gdf_stop_recognition s).pvt.utterance_postendpointer_recording_open_already_attempted
      = s.pvt.utterance_postendpointer_recording_open_already_attempted ∧
    (gdf_stop_recognition s).pvt.call_log_open_already_attempted
      = s.pvt.call_log_open_already_attempted ∧
    (gdf_stop_recognition s).pvt.call_log_file_handle = s.pvt.call_log_file_handle ∧
    (gdf_stop_recognition s).pvt.call_log_path = s.pvt.call_log_path ∧
    (gdf_stop_recognition s).pvt.vad_state = s.pvt.vad_state ∧
    (gdf_stop_recognition s).config = s.config ∧
    (gdf_stop_recognition s).pre_open_attempts = s.pre_open_attempts ∧
    (gdf_stop_recognition s).post_open_attempts = s.post_open_attempts ∧
    (gdf_stop_recognition s).call_log_open_attempts = s.call_log_open_attempts := by
  obtain ⟨h1, h2, h3, h4, h5, h6, h7, h8, h9, h10, h11, h12, h13, h14, h15, h16⟩ :=
    close_preendpointed_effects s
  obtain ⟨g1, g2, g3, g4, g5, g6, g7, g8, g9, g10, g11, g12, g13, g14, g15, g16⟩ :=
    close_postendpointed_effects (close_preendpointed_audio_recording s)
  have wl := write_end_of_recognition_call_event_effects
    { close_postendpointed_audio_recording (close_preendpointed_audio_recording s) with
        speech :=
          { (close_postendpointed_audio_recording
              (close_preendpointed_audio_recording s)).speech with
              speech_state := AST_SPEECH_STATE_DONE } }
  obtain ⟨w1, w2, w3, w4, w5, w6, w7, w8, w9⟩ := wl
  unfold gdf_stop_recognition
  simp only [w1, w2, w3, w4, w5, w6, w7, w8, w9]
  simp_all

/-- Effect summary of `open_preendpointed_recording_file`: the already-
attempted flag is set (before the `fopen`), exactly one open attempt is
made, the handle becomes open exactly on success; nothing else changes
outside the log. -/
theorem open_preendpointed_effects (s : GdfSession) (env : WriteEnv) :
    (open_preendpointed_recording_file s env).pvt.utterance_preendpointer_recording_open_already_attempted = true ∧
    (open_preendpointed_recording_file s env).pre_open_attempts = s.pre_open_attempts + 1 ∧
    (open_preendpointed_recording_file s env).pvt.utterance_preendpointer_recording_file_handle
      = (s.pvt.utterance_preendpointer_recording_file_handle || env.pre_open_succeeds) ∧
    (open_preendpointed_recording_file s env).pvt.utterance_postendpointer_recording_file_handle
      = s.pvt.utterance_postendpointer_recording_file_handle ∧
    (open_preendpointed_recording_file s env).pvt.utterance_postendpointer_recording_open_already_attempted
      = s.pvt.utterance_postendpointer_recording_open_already_attempted ∧
    (open_preendpointed_recording_file s env).pvt.call_log_open_already_attempted
      = s.pvt.call_log_open_already_attempted ∧
    (open_preendpointed_recording_file s env).pvt.call_log_file_handle = s.pvt.call_log_file_handle ∧
    (open_preendpointed_recording_file s env).pvt.call_log_path = s.pvt.call_log_path ∧
    (open_preendpointed_recording_file s env).pvt.vad_state = s.pvt.vad_state ∧
    (open_preendpointed_recording_file s env).speech = s.speech ∧
    (open_preendpointed_recording_file s env).config = s.config ∧
    (open_preendpointed_recording_file s env).session_end_events = s.session_end_events ∧
    (open_preendpointed_recording_file s env).pre_fclose_count = s.pre_fclose_count ∧
    (open_preendpointed_recording_file s env).post_fclose_count = s.post_fclose_count ∧
    (open_preendpointed_recording_file s env).post_open_attempts = s.post_open_attempts ∧
    (open_preendpointed_recording_file s env).call_log_open_attempts = s.call_log_open_attempts := by
  unfold open_preendpointed_recording_file gdf_log_call_event call_log_enabled_for_pvt
  by_cases h : env.pre_open_succeeds <;> (simp [h]; try (split <;> simp_all))

/-- Effect summary of `open_postendpointed_recording_file`. -/
theorem open_postendpointed_effects (s : GdfSession) (env : WriteEnv) :
    (open_postendpointed_recording_file s env).pvt.utterance_postendpointer_recording_open_already_attempted = true ∧
    (open_postendpointed_recording_file s env).post_open_attempts = s.post_open_attempts + 1 ∧
    (open_postendpointed_recording_file s env).pvt.utterance_postendpointer_recording_file_handle
      = (s.pvt.utterance_postendpointer_recording_file_handle || env.post_open_succeeds) ∧
    (open_postendpointed_recording_file s env).pvt.utterance_preendpointer_recording_file_handle
      = s.pvt.utterance_preendpointer_recording_file_handle ∧
    (open_postendpointed_recording_file s env).pvt.utterance_preendpointer_recording_open_already_attempted
      = s.pvt.utterance_preendpointer_recording_open_already_attempted ∧
    (open_postendpointed_recording_file s env).pvt.call_log_open_already_attempted
      = s.pvt.call_log_open_already_attempted ∧
    (open_postendpointed_recording_file s env).pvt.call_log_file_handle = s.pvt.call_log_file_handle ∧
    (open_postendpointed_recording_file s env).pvt.call_log_path = s.pvt.call_log_path ∧
    (open_postendpointed_recording_file s env).pvt.vad_state = s.pvt.vad_state ∧
    (open_postendpointed_recording_file s env).speech = s.speech ∧
    (open_postendpointed_recording_file s env).config = s.config ∧
    (open_postendpointed_recording_file s env).session_end_events = s.session_end_events ∧
    (open_postendpointed_recording_file s env).pre_fclose_count = s.pre_fclose_count ∧
    (open_postendpointed_recording_file s env).post_fclose_count = s.post_fclose_count ∧
    (open_postendpointed_recording_file s env).pre_open_attempts = s.pre_open_attempts ∧
    (open_postendpointed_recording_file s env).call_log_open_attempts = s.call_log_open_attempts := by
  unfold open_postendpointed_recording_file gdf_log_call_event call_log_enabled_for_pvt
  by_cases h : env.post_open_succeeds <;> (simp [h]; try (split <;> simp_all))

/-- Effect summary of `maybe_record_audio`: it may only open recording
files (never closes them, never clears a flag), and leaves the speech
object, VAD state, call-log fields and every counter except the recording
open-attempt counters untouched. -/
theorem maybe_record_audio_effects (s : GdfSession) (env : WriteEnv) (v : VAD_STATE) :
    (maybe_record_audio s env v).speech = s.speech ∧
    (maybe_record_audio s env v).config = s.config ∧
    (maybe_record_audio s env v).pvt.vad_state = s.pvt.vad_state ∧
    (maybe_record_audio s env v).pvt.call_log_open_already_attempted
      = s.pvt.call_log_open_already_attempted ∧
    (maybe_record_audio s env v).pvt.call_log_file_handle = s.pvt.call_log_file_handle ∧
    (maybe_record_audio s env v).pvt.call_log_path = s.pvt.call_log_path ∧
    (maybe_record_audio s env v).session_end_events = s.session_end_events ∧
    (maybe_record_audio s env v).pre_fclose_count = s.pre_fclose_count ∧
    (maybe_record_audio s env v).post_fclose_count = s.post_fclose_count ∧
    (maybe_record_audio s env v).call_log_open_attempts = s.call_log_open_attempts ∧
    (s.pvt.utterance_preendpointer_recording_file_handle = true →
      (maybe_record_audio s env v).pvt.utterance_preendpointer_recording_file_handle = true) ∧
    (s.pvt.utterance_postendpointer_recording_file_handle = true →
      (maybe_record_audio s env v).pvt.utterance_postendpointer_recording_file_handle = true) ∧
    (s.pvt.utterance_preendpointer_recording_open_already_attempted = true →
      (maybe_record_audio s env v).pvt.utterance_preendpointer_recording_open_already_attempted = true) ∧
    (s.pvt.utterance_postendpointer_recording_open_already_attempted = true →
      (maybe_record_audio s env v).pvt.utterance_postendpointer_recording_open_already_attempted = true) := by
  unfold maybe_record_audio
  dsimp only
  split <;> split <;>
    simp [open_preendpointed_effects, open_postendpointed_effects] <;> tauto

/-- Effect summary of `gdf_write_commit_vad`: stores the VAD outcome and
possibly logs; everything else untouched. -/
theorem gdf_write_commit_vad_effects (s : GdfSession) (t : VadTransition) :
    (gdf_write_commit_vad s t).pvt.vad_state = t.vad_state ∧
    (gdf_write_commit_vad s t).speech = s.speech ∧
    (gdf_write_commit_vad s t).config = s.config ∧
    (gdf_write_commit_vad s t).pvt.utterance_preendpointer_recording_file_handle
      = s.pvt.utterance_preendpointer_recording_file_handle ∧
    (gdf_write_commit_vad s t).pvt.utterance_postendpointer_recording_file_handle
      = s.pvt.utterance_postendpointer_recording_file_handle ∧
    (gdf_write_commit_vad s t).pvt.utterance_preendpointer_recording_open_already_attempted
      = s.pvt.utterance_preendpointer_recording_open_already_attempted ∧
    (gdf_write_commit_vad s t).pvt.utterance_postendpointer_recording_open_already_attempted
      = s.pvt.utterance_postendpointer_recording_open_already_attempted ∧
    (gdf_write_commit_vad s t).pvt.call_log_open_already_attempted
      = s.pvt.call_log_open_already_attempted ∧
    (gdf_write_commit_vad s t).pvt.call_log_file_handle = s.pvt.call_log_file_handle ∧
    (gdf_write_commit_vad s t).pvt.call_log_path = s.pvt.call_log_path ∧
    (gdf_write_commit_vad s t).session_end_events = s.session_end_events ∧
    (gdf_write_commit_vad s t).pre_fclose_count = s.pre_fclose_count ∧
    (gdf_write_commit_vad s t).post_fclose_count = s.post_fclose_count ∧
    (gdf_write_commit_vad s t).pre_open_attempts = s.pre_open_attempts ∧
    (gdf_write_commit_vad s t).post_open_attempts = s.post_open_attempts ∧
    (gdf_write_commit_vad s t).call_log_open_attempts = s.call_log_open_attempts := by
  unfold gdf_write_commit_vad
  dsimp only
  split <;> simp [gdf_log_call_event_pvt, gdf_log_call_event_speech, gdf_log_call_event_ghost]

/-- The forwarding tail never changes the stored VAD state. -/
theorem gdf_write_forward_tail_vad_state (s : GdfSession) (v : VAD_STATE) (env : WriteEnv) :
    (gdf_write_forward_tail s v env).pvt.vad_state = s.pvt.vad_state := by
  unfold gdf_write_forward_tail
  dsimp only
  repeat' split
  all_goals
    simp [gdf_stop_recognition_effects, maybe_record_audio_effects]

/-- `gdf_write_forward` never changes the stored VAD state. -/
theorem gdf_write_forward_vad_state (s : GdfSession) (o v : VAD_STATE) (env : WriteEnv) :
    (gdf_write_forward s o v env).pvt.vad_state = s.pvt.vad_state := by
  unfold gdf_write_forward
  dsimp only
  repeat' split
  all_goals
    simp [gdf_write_forward_tail_vad_state, gdf_stop_recognition_effects,
      maybe_record_audio_effects, are_currently_recording_pre_endpointed_audio]

/-- C2: over all tunables and all frame observations, a `gdf_write` step
that starts in `VAD_STATE_START` (PRE_SPEECH) can only stay there or move
to `VAD_STATE_SPEAK` (SPEAKING) — it never moves directly to
`VAD_STATE_SILENT` (POST_SPEECH_SILENCE), so every state sequence reaches
SILENT only through SPEAK. -/
theorem gdf_write_never_start_to_silent (s : GdfSession) (mem : List Int) (len : Nat)
    (env : WriteEnv) (s' : GdfSession)
    (hstart : s.pvt.vad_state = VAD_STATE_START)
    (h : gdf_write s mem len env = some s') :
    s'.pvt.vad_state = VAD_STATE_START ∨ s'.pvt.vad_state = VAD_STATE_SPEAK := by
  unfold gdf_write at h
  cases hav : gdf_write_avg_level mem len with
  | none => rw [hav] at h; exact absurd h (by simp)
  | some avg =>
    rw [hav] at h
    have hs' : gdf_write_with_level s avg len env = s' := by
      injection h
    subst hs'
    unfold gdf_write_with_level
    rw [gdf_write_forward_vad_state, (gdf_write_commit_vad_effects _ _).1]
    simp only [gdf_write_vad_result, vad_transition, hstart]
    split <;> simp

/-- Concrete output of one `gdf_write` step from the default session, used
by the C2 witness. -/
def c2_out : GdfSession := gdf_write_with_level default_session 0 2 benign_env

/-- Witness for C2 at a concrete input. -/
theorem gdf_write_never_start_to_silent_witness :
    c2_out.pvt.vad_state = VAD_STATE_START ∨ c2_out.pvt.vad_state = VAD_STATE_SPEAK :=
  gdf_write_never_start_to_silent default_session [0, 0] 2 benign_env c2_out rfl rfl

/-- The frame of the spec's worked VAD example: 5 ms at 8 kHz is 40 samples
(80 bytes); every sample has magnitude 150 so the measured loudness is 150.
The estimator reads `len` = 80 shorts, so the memory holds 80 samples. -/
def c1_frame : List Int := List.replicate 80 150

/-- Iterate `gdf_write` on consecutive copies of the example frame from the
default session (`voice_threshold` 100, `voice_minimum_duration` 40 ms). -/
def c1_run : Nat → Option GdfSession
  | 0 => some default_session
  | n + 1 =>
      match c1_run n with
      | none => none
      | some s => gdf_write s c1_frame 80 benign_env

/-- C1: with `voice_threshold` 100, `voice_minimum_duration` 40 ms and
consecutive 5 ms frames of loudness 150, the accumulated opposing duration
after `k` frames is `5 * k` ms; for every `k < 8` (duration below 40 ms)
the state is still `VAD_STATE_START`, and on frame 8 — the first frame at
which the accumulated opposing duration reaches 40 ms — the machine commits
to `VAD_STATE_SPEAK`. -/
theorem c1_speech_start_commits_at_40ms :
    (∀ k, k < 8 →
      (c1_run k).map (fun s => s.pvt.vad_state) = some VAD_STATE_START ∧
      (c1_run k).map (fun s => s.pvt.vad_change_duration) = some (5 * (k : Int))) ∧
    (c1_run 8).map (fun s => s.pvt.vad_state) = some VAD_STATE_SPEAK ∧
    (c1_run 8).map (fun s => s.pvt.vad_change_duration) = some 0 := by
  decide

/-- Witness for C1 at the concrete frame count 7 (35 ms accumulated). -/
theorem c1_speech_start_commits_at_40ms_witness :
    (c1_run 7).map (fun s => s.pvt.vad_state) = some VAD_STATE_START ∧
    (c1_run 7).map (fun s => s.pvt.vad_change_duration) = some (5 * ((7 : Nat) : Int)) :=
  c1_speech_start_commits_at_40ms.1 7 (by decide)

/-- C3 (code bug): `gdf_write` passes the BYTE length to
`calculate_audio_level`, which walks that many `short` samples.  For a
frame of `len = 2` bytes (one sample, value 100) followed in memory by a
sample of value 0, the level actually computed is 50 — the mean over
`len = 2` samples — while the mean over the frame's `len / 2 = 1` samples
is 100. -/
theorem c3_level_uses_byte_count_not_sample_count :
    gdf_write_avg_level [100, 0] 2 = some 50 ∧
    calculate_audio_level (([(100 : Int), 0]).take (2 / 2)) = some 100 ∧
    (50 : Nat) ≠ 100 := by
  decide

/-- C4 counterexample: there is no empty-frame guard at the
`calculate_audio_level` call site in `gdf_write`; a frame delivered with
length zero reaches the division with a zero divisor (the modelled
division-by-zero, `none`), so the error branch is reachable. -/
theorem c4_zero_length_frame_reaches_division_by_zero :
    gdf_write default_session [] 0 benign_env = none := by
  rfl

/-- C4 (amended): `calculate_audio_level` has no internal guard and
`gdf_write` adds none; the divisor is the byte length `len` itself, so it
is non-zero — and the division-by-zero branch unreachable — exactly for
frames with `len > 0`. -/
theorem c4_amended_nonzero_length_divides_safely (s : GdfSession) (mem : List Int)
    (len : Nat) (env : WriteEnv) (h0 : 0 < len) (hmem : len ≤ mem.length) :
    gdf_write_avg_level mem len = some (((mem.take len).map Int.natAbs).sum / len) ∧
    ∃ s', gdf_write s mem len env = some s' := by
  have hlen : (mem.take len).length = len := by
    rw [List.length_take]; omega
  have havg : gdf_write_avg_level mem len
      = some (((mem.take len).map Int.natAbs).sum / len) := by
    unfold gdf_write_avg_level calculate_audio_level
    rw [hlen, if_neg (by omega)]
  refine ⟨havg, ?_⟩
  unfold gdf_write
  rw [havg]
  exact ⟨_, rfl⟩

/-- Witness for the amended C4 at a concrete two-byte frame. -/
theorem c4_amended_nonzero_length_divides_safely_witness :
    gdf_write_avg_level [7, 9] 2 = some ((([(7 : Int), 9].take 2).map Int.natAbs).sum / 2) ∧
    ∃ s', gdf_write default_session [7, 9] 2 benign_env = some s' :=
  c4_amended_nonzero_length_divides_safely default_session [7, 9] 2 benign_env
    (by decide) (by decide)

/-- C5 counterexample: a frame consisting of the single sample -32768 has
mean absolute magnitude 32768, outside the claimed range `[0, 32767]`
(C `abs` on the int-promoted sample yields 32768). -/
theorem c5_counterexample_level_can_be_32768 :
    calculate_audio_level [(-32768 : Int)] = some 32768 ∧ ¬((32768 : Nat) ≤ 32767) := by
  decide

/-- C5 (amended): for every non-empty frame of signed 16-bit samples the
estimator returns the floor of the mean absolute magnitude (characterized
by the two division inequalities) and the result lies in `[0, 32768]` —
32768, not 32767, is the tight upper bound, reached only by all-(-32768)
frames. -/
theorem c5_amended_level_is_floor_mean_abs (samples : List Int) (hne : samples ≠ [])
    (hb : ∀ x ∈ samples, -32768 ≤ x ∧ x ≤ 32767) :
    calculate_audio_level samples
      = some ((samples.map Int.natAbs).sum / samples.length) ∧
    (samples.map Int.natAbs).sum / samples.length * samples.length
      ≤ (samples.map Int.natAbs).sum ∧
    (samples.map Int.natAbs).sum
      < ((samples.map Int.natAbs).sum / samples.length + 1) * samples.length ∧
    (samples.map Int.natAbs).sum / samples.length ≤ 32768 := by
  have hL : 0 < samples.length := List.length_pos.mpr hne
  refine ⟨?_, Nat.div_mul_le_self _ _, ?_, ?_⟩
  · unfold calculate_audio_level
    rw [if_neg (by omega)]
  · have h1 : (samples.map Int.natAbs).sum / samples.length * samples.length
        + (samples.map Int.natAbs).sum % samples.length = (samples.map Int.natAbs).sum :=
      Nat.div_add_mod' _ _
    have h2 : (samples.map Int.natAbs).sum % samples.length < samples.length :=
      Nat.mod_lt _ hL
    calc (samples.map Int.natAbs).sum
        = (samples.map Int.natAbs).sum / samples.length * samples.length
            + (samples.map Int.natAbs).sum % samples.length := h1.symm
      _ < (samples.map Int.natAbs).sum / samples.length * samples.length
            + samples.length := Nat.add_lt_add_left h2 _
      _ = ((samples.map Int.natAbs).sum / samples.length + 1) * samples.length := by ring
  · have hsum : (samples.map Int.natAbs).sum ≤ (samples.map Int.natAbs).length • 32768 := by
      refine List.sum_le_card_nsmul _ _ ?_
      intro x hx
      simp only [List.mem_map] at hx
      obtain ⟨y, hy, rfl⟩ := hx
      have := hb y hy
      omega
    have hsum' : (samples.map Int.natAbs).sum ≤ samples.length * 32768 := by
      simpa [smul_eq_mul] using hsum
    calc (samples.map Int.natAbs).sum / samples.length
        ≤ samples.length * 32768 / samples.length := Nat.div_le_div_right hsum'
      _ = 32768 := Nat.mul_div_cancel_left _ hL

/-- Witness for the amended C5 at a concrete non-empty frame. -/
theorem c5_amended_level_is_floor_mean_abs_witness :
    calculate_audio_level [(3 : Int), -4]
      = some ((([(3 : Int), -4]).map Int.natAbs).sum / ([(3 : Int), -4]).length) ∧
    (([(3 : Int), -4]).map Int.natAbs).sum / ([(3 : Int), -4]).length * ([(3 : Int), -4]).length
      ≤ (([(3 : Int), -4]).map Int.natAbs).sum ∧
    (([(3 : Int), -4]).map Int.natAbs).sum
      < ((([(3 : Int), -4]).map Int.natAbs).sum / ([(3 : Int), -4]).length + 1)
          * ([(3 : Int), -4]).length ∧
    (([(3 : Int), -4]).map Int.natAbs).sum / ([(3 : Int), -4]).length ≤ 32768 :=
  c5_amended_level_is_floor_mean_abs [3, -4] (by decide) (by decide)

/-- Effect summary of the forwarding tail: the finalize counters never
decrease, an already-DONE speech state survives, and a terminal backend
status forces DONE, closes both recordings (one `fclose` per handle open at
entry) and emits an end-of-recognition event. -/
theorem gdf_write_forward_tail_effects (x : GdfSession) (v : VAD_STATE) (env : WriteEnv) :
    x.session_end_events ≤ (gdf_write_forward_tail x v env).session_end_events ∧
    x.pre_fclose_count ≤ (gdf_write_forward_tail x v env).pre_fclose_count ∧
    x.post_fclose_count ≤ (gdf_write_forward_tail x v env).post_fclose_count ∧
    (x.speech.speech_state = AST_SPEECH_STATE_DONE →
      (gdf_write_forward_tail x v env).speech.speech_state = AST_SPEECH_STATE_DONE) ∧
    ((env.write_audio_state = DF_STATE_FINISHED ∨ env.write_audio_state = DF_STATE_ERROR) →
      (gdf_write_forward_tail x v env).speech.speech_state = AST_SPEECH_STATE_DONE ∧
      (gdf_write_forward_tail x v env).pvt.utterance_preendpointer_recording_file_handle
        = false ∧
      (gdf_write_forward_tail x v env).pvt.utterance_postendpointer_recording_file_handle
        = false ∧
      x.session_end_events + 1 ≤ (gdf_write_forward_tail x v env).session_end_events ∧
      (x.pvt.utterance_preendpointer_recording_file_handle = true →
        x.pre_fclose_count + 1 ≤ (gdf_write_forward_tail x v env).pre_fclose_count) ∧
      (x.pvt.utterance_postendpointer_recording_file_handle = true →
        x.post_fclose_count + 1 ≤ (gdf_write_forward_tail x v env).post_fclose_count)) := by
  unfold gdf_write_forward_tail
  dsimp only
  repeat' split
  all_goals
    simp_all [gdf_stop_recognition_effects, maybe_record_audio_effects]

/-- C6: whenever the exchange fails — `df_start_recognition` fails on the
speech-start transition, or `df_write_audio` comes back FINISHED/ERROR —
`gdf_write` finalizes the utterance: each recording file open at entry is
`fclose`d during the call, the speech object is forced to
`AST_SPEECH_STATE_DONE` at return, and the end-of-recognition session event
is emitted (at least once). -/
theorem c6_exchange_failure_finalizes (s : GdfSession) (mem : List Int) (len : Nat)
    (env : WriteEnv) (s' : GdfSession) (avg : Nat)
    (havg : gdf_write_avg_level mem len = some avg)
    (h : gdf_write s mem len env = some s')
    (hfail :
      (s.pvt.vad_state = VAD_STATE_START ∧
        (gdf_write_vad_result s avg len).vad_state = VAD_STATE_SPEAK ∧
        env.start_recognition_fails = true) ∨
      ((gdf_write_vad_result s avg len).vad_state ≠ VAD_STATE_START ∧
        (env.write_audio_state = DF_STATE_FINISHED ∨
          env.write_audio_state = DF_STATE_ERROR))) :
    s'.speech.speech_state = AST_SPEECH_STATE_DONE ∧
    s.session_end_events + 1 ≤ s'.session_end_events ∧
    (s.pvt.utterance_preendpointer_recording_file_handle = true →
      s.pre_fclose_count + 1 ≤ s'.pre_fclose_count) ∧
    (s.pvt.utterance_postendpointer_recording_file_handle = true →
      s.post_fclose_count + 1 ≤ s'.post_fclose_count) := by
  unfold gdf_write at h
  rw [havg] at h
  have hs' : gdf_write_with_level s avg len env = s' := by injection h
  subst hs'
  unfold gdf_write_with_level gdf_write_forward
  dsimp only
  obtain ⟨e1, e2, e3, e4, e5, e6, e7, e8, e9, e10, e11, e12, e13, e14, e15, e16⟩ :=
    gdf_write_commit_vad_effects s (gdf_write_vad_result s avg len)
  rcases hfail with ⟨hst, hsp, hfl⟩ | ⟨hne, hterm⟩
  · rw [if_pos (show (gdf_write_vad_result s avg len).vad_state ≠ VAD_STATE_START by
          rw [hsp]; decide),
        if_pos ⟨hsp, hst⟩, if_pos hfl]
    obtain ⟨g1, g2, g3, g4, g5, g6, g7, g8, g9, g10, g11, g12, g13, g14, g15, g16⟩ :=
      gdf_stop_recognition_effects (gdf_write_commit_vad s (gdf_write_vad_result s avg len))
    obtain ⟨m1, m2, m3, m4, m5⟩ :=
      gdf_write_forward_tail_effects
        (gdf_stop_recognition (gdf_write_commit_vad s (gdf_write_vad_result s avg len)))
        (gdf_write_vad_result s avg len).vad_state env
    refine ⟨m4 g1, ?_, ?_, ?_⟩
    · rw [g4, e11] at m1; omega
    · intro hpre
      rw [g5, e12, e4, hpre] at m2
      simpa using m2
    · intro hpost
      rw [g6, e13, e5, hpost] at m3
      simpa using m3
  · rw [if_pos hne]
    by_cases hcond : (gdf_write_vad_result s avg len).vad_state = VAD_STATE_SPEAK ∧
        s.pvt.vad_state = VAD_STATE_START
    · rw [if_pos hcond]
      by_cases hflag : env.start_recognition_fails = true
      · rw [if_pos hflag]
        obtain ⟨g1, g2, g3, g4, g5, g6, g7, g8, g9, g10, g11, g12, g13, g14, g15, g16⟩ :=
          gdf_stop_recognition_effects
            (gdf_write_commit_vad s (gdf_write_vad_result s avg len))
        obtain ⟨m1, m2, m3, m4, m5⟩ :=
          gdf_write_forward_tail_effects
            (gdf_stop_recognition (gdf_write_commit_vad s (gdf_write_vad_result s avg len)))
            (gdf_write_vad_result s avg len).vad_state env
        obtain ⟨t1, t2, t3, t4, t5, t6⟩ := m5 hterm
        refine ⟨t1, ?_, ?_, ?_⟩
        · rw [g4, e11] at t4; omega
        · intro hpre
          rw [g5, e12, e4, hpre] at m2
          simpa using m2
        · intro hpost
          rw [g6, e13, e5, hpost] at m3
          simpa using m3
      · rw [if_neg hflag]
        obtain ⟨m1, m2, m3, m4, m5⟩ :=
          gdf_write_forward_tail_effects
            (gdf_write_commit_vad s (gdf_write_vad_result s avg len))
            (gdf_write_vad_result s avg len).vad_state env
        obtain ⟨t1, t2, t3, t4, t5, t6⟩ := m5 hterm
        refine ⟨t1, ?_, ?_, ?_⟩
        · rw [e11] at t4; omega
        · intro hpre
          rw [e4, e12] at t5
          exact t5 hpre
        · intro hpost
          rw [e5, e13] at t6
          exact t6 hpost
    · rw [if_neg hcond]
      obtain ⟨m1, m2, m3, m4, m5⟩ :=
        gdf_write_forward_tail_effects
          (gdf_write_commit_vad s (gdf_write_vad_result s avg len))
          (gdf_write_vad_result s avg len).vad_state env
      obtain ⟨t1, t2, t3, t4, t5, t6⟩ := m5 hterm
      refine ⟨t1, ?_, ?_, ?_⟩
      · rw [e11] at t4; omega
      · intro hpre
        rw [e4, e12] at t5
        exact t5 hpre
      · intro hpost
        rw [e5, e13] at t6
        exact t6 hpost

/-- Concrete SPEAKING session with both recordings open, for the C6
witness. -/
def c6_session : GdfSession :=
  { default_session with
      pvt :=
        { default_pvt with
            vad_state := VAD_STATE_SPEAK,
            utterance_preendpointer_recording_file_handle := true,
            utterance_postendpointer_recording_file_handle := true } }

/-- Environment whose `df_write_audio` reports a terminal FINISHED. -/
def c6_env : WriteEnv := { benign_env with write_audio_state := DF_STATE_FINISHED }

/-- Output of the C6 witness run. -/
def c6_out : GdfSession := gdf_write_with_level c6_session 0 2 c6_env

/-- Witness for C6: a terminal `df_write_audio` status on a concrete
SPEAKING session with open recordings. -/
theorem c6_exchange_failure_finalizes_witness :
    c6_out.speech.speech_state = AST_SPEECH_STATE_DONE ∧
    c6_session.session_end_events + 1 ≤ c6_out.session_end_events ∧
    (c6_session.pvt.utterance_preendpointer_recording_file_handle = true →
      c6_session.pre_fclose_count + 1 ≤ c6_out.pre_fclose_count) ∧
    (c6_session.pvt.utterance_postendpointer_recording_file_handle = true →
      c6_session.post_fclose_count + 1 ≤ c6_out.post_fclose_count) :=
  c6_exchange_failure_finalizes c6_session [0, 0] 2 c6_env c6_out 0 rfl rfl
    (Or.inr ⟨by decide, Or.inl rfl⟩)

/-- Effect summary of `start_call_log`: marks the open attempted, stores
the computed path, attempts the `fopen` only for a non-empty path; leaves
the speech object, recordings and finalize counters alone. -/
theorem start_call_log_effects (s : GdfSession) (env : StartEnv) :
    (start_call_log s env).speech = s.speech ∧
    (start_call_log s env).config = s.config ∧
    (start_call_log s env).session_end_events = s.session_end_events ∧
    (start_call_log s env).pre_fclose_count = s.pre_fclose_count ∧
    (start_call_log s env).post_fclose_count = s.post_fclose_count ∧
    (start_call_log s env).pvt.call_log_open_already_attempted = true ∧
    (start_call_log s env).pvt.call_log_path = env.computed_call_log_path ∧
    (start_call_log s env).call_log_open_attempts
      = s.call_log_open_attempts + (if env.computed_call_log_path == "" then 0 else 1) ∧
    (start_call_log s env).pvt.utterance_preendpointer_recording_file_handle
      = s.pvt.utterance_preendpointer_recording_file_handle ∧
    (start_call_log s env).pvt.utterance_postendpointer_recording_file_handle
      = s.pvt.utterance_postendpointer_recording_file_handle ∧
    (start_call_log s env).pvt.utterance_preendpointer_recording_open_already_attempted
      = s.pvt.utterance_preendpointer_recording_open_already_attempted ∧
    (start_call_log s env).pvt.utterance_postendpointer_recording_open_already_attempted
      = s.pvt.utterance_postendpointer_recording_open_already_attempted ∧
    (start_call_log s env).pre_open_attempts = s.pre_open_attempts ∧
    (start_call_log s env).post_open_attempts = s.post_open_attempts ∧
    (start_call_log s env).pvt.vad_state = s.pvt.vad_state ∧
    (start_call_log s env).pvt.event = s.pvt.event := by
  unfold start_call_log
  dsimp only
  repeat' split
  all_goals simp_all

/-- Effect summary of `gdf_start_prelude`: the VAD state and counters are
reset (and the pending event cleared), the finalize counters and the speech
object survive; the call-log fields only move when the open had not been
attempted yet. -/
theorem gdf_start_prelude_effects (s : GdfSession) (env : StartEnv) :
    (gdf_start_prelude s env).speech = s.speech ∧
    (gdf_start_prelude s env).config = s.config ∧
    (gdf_start_prelude s env).session_end_events = s.session_end_events ∧
    (gdf_start_prelude s env).pre_fclose_count = s.pre_fclose_count ∧
    (gdf_start_prelude s env).post_fclose_count = s.post_fclose_count ∧
    (gdf_start_prelude s env).pvt.vad_state = VAD_STATE_START ∧
    (gdf_start_prelude s env).pvt.event = "" ∧
    (gdf_start_prelude s env).pvt.utterance_preendpointer_recording_file_handle
      = s.pvt.utterance_preendpointer_recording_file_handle ∧
    (gdf_start_prelude s env).pvt.utterance_postendpointer_recording_file_handle
      = s.pvt.utterance_postendpointer_recording_file_handle ∧
    (gdf_start_prelude s env).pvt.utterance_preendpointer_recording_open_already_attempted
      = s.pvt.utterance_preendpointer_recording_open_already_attempted ∧
    (gdf_start_prelude s env).pvt.utterance_postendpointer_recording_open_already_attempted
      = s.pvt.utterance_postendpointer_recording_open_already_attempted ∧
    (gdf_start_prelude s env).pre_open_attempts = s.pre_open_attempts ∧
    (gdf_start_prelude s env).post_open_attempts = s.post_open_attempts ∧
    (s.pvt.call_log_open_already_attempted = true →
      (gdf_start_prelude s env).pvt.call_log_open_already_attempted = true ∧
      (gdf_start_prelude s env).pvt.call_log_path = s.pvt.call_log_path ∧
      (gdf_start_prelude s env).call_log_open_attempts = s.call_log_open_attempts) := by
  unfold gdf_start_prelude should_start_call_log log_endpointer_start_event
  dsimp only
  repeat' split
  all_goals
    simp_all [start_call_log_effects, gdf_log_call_event_pvt, gdf_log_call_event_speech,
      gdf_log_call_event_ghost]

/-- Session with a pending priming event and an open pre-endpoint
recording, for the C7 counterexample. -/
def c7_session : GdfSession :=
  { default_session with
      pvt :=
        { default_pvt with
            event := "welcome",
            utterance_preendpointer_recording_file_handle := true } }

/-- Environment whose `df_recognize_event` fails. -/
def c7_env : StartEnv where
  recognize_event_fails := true
  computed_call_log_path := ""
  call_log_open_succeeds := false

/-- C7 counterexample: with a pending priming event and a FAILING
recognize-event exchange, `gdf_start` does NOT finalize the utterance — the
speech object is left NOT_READY (not DONE), no end-of-recognition event is
emitted, and the open pre-endpoint recording stays open. -/
theorem c7_counterexample_failure_does_not_finalize :
    (gdf_start c7_session c7_env).speech.speech_state = AST_SPEECH_STATE_NOT_READY ∧
    (gdf_start c7_session c7_env).speech.speech_state ≠ AST_SPEECH_STATE_DONE ∧
    (gdf_start c7_session c7_env).session_end_events = 0 ∧
    (gdf_start c7_session c7_env).pvt.utterance_preendpointer_recording_file_handle
      = true := by
  decide

/-- C7 (amended): with a pending priming event, `gdf_start` issues the
one-shot recognize-event exchange instead of streaming; on SUCCESS it
immediately finalizes the utterance (recordings closed, DONE state reached,
end event emitted), but on FAILURE it only sets the speech state to
NOT_READY — no recording is closed and no end event is emitted. -/
theorem c7_amended_priming_finalizes_only_on_success (s : GdfSession) (env : StartEnv)
    (hev : s.pvt.event ≠ "") :
    (env.recognize_event_fails = true →
      (gdf_start s env).speech.speech_state = AST_SPEECH_STATE_NOT_READY ∧
      (gdf_start s env).session_end_events = s.session_end_events ∧
      (gdf_start s env).pre_fclose_count = s.pre_fclose_count ∧
      (gdf_start s env).post_fclose_count = s.post_fclose_count ∧
      (gdf_start s env).pvt.utterance_preendpointer_recording_file_handle
        = s.pvt.utterance_preendpointer_recording_file_handle ∧
      (gdf_start s env).pvt.utterance_postendpointer_recording_file_handle
        = s.pvt.utterance_postendpointer_recording_file_handle) ∧
    (env.recognize_event_fails = false →
      (gdf_start s env).speech.speech_state = AST_SPEECH_STATE_DONE ∧
      (gdf_start s env).session_end_events = s.session_end_events + 1 ∧
      (gdf_start s env).pvt.utterance_preendpointer_recording_file_handle = false ∧
      (gdf_start s env).pvt.utterance_postendpointer_recording_file_handle = false) := by
  obtain ⟨p1, p2, p3, p4, p5, p6, p7, p8, p9, p10, p11, p12, p13, p14⟩ :=
    gdf_start_prelude_effects s env
  constructor <;> intro hf
  · unfold gdf_start
    dsimp only
    rw [if_pos hev, if_pos hf]
    exact ⟨rfl, p3, p4, p5, p8, p9⟩
  · unfold gdf_start
    dsimp only
    rw [if_pos hev, if_neg (by simp [hf])]
    obtain ⟨g1, g2, g3, g4, g5, g6, g7, g8, g9, g10, g11, g12, g13, g14, g15, g16⟩ :=
      gdf_stop_recognition_effects (gdf_start_prelude s env)
    exact ⟨g1, by rw [g4, p3], g2, g3⟩

/-- Witness for the amended C7 at a concrete primed session (failure
side). -/
theorem c7_amended_priming_finalizes_only_on_success_witness :
    (gdf_start c7_session c7_env).speech.speech_state = AST_SPEECH_STATE_NOT_READY ∧
    (gdf_start c7_session c7_env).session_end_events = c7_session.session_end_events ∧
    (gdf_start c7_session c7_env).pre_fclose_count = c7_session.pre_fclose_count ∧
    (gdf_start c7_session c7_env).post_fclose_count = c7_session.post_fclose_count ∧
    (gdf_start c7_session c7_env).pvt.utterance_preendpointer_recording_file_handle
      = c7_session.pvt.utterance_preendpointer_recording_file_handle ∧
    (gdf_start c7_session c7_env).pvt.utterance_postendpointer_recording_file_handle
      = c7_session.pvt.utterance_postendpointer_recording_file_handle :=
  (c7_amended_priming_finalizes_only_on_success c7_session c7_env (by decide)).1 rfl

/-- Log-count summary of `gdf_stop_recognition`: with the call log active
each recording-stop event is appended exactly once per finalize call —
whether or not the corresponding recording file was open — and logging
stays active. -/
theorem gdf_stop_recognition_counts (s : GdfSession) :
    count_log_events (gdf_stop_recognition s) CALL_LOG_TYPE_ENDPOINTER "pre_recording_stop"
      = count_log_events s CALL_LOG_TYPE_ENDPOINTER "pre_recording_stop"
        + (if call_log_enabled_for_pvt s then 1 else 0) ∧
    count_log_events (gdf_stop_recognition s) CALL_LOG_TYPE_ENDPOINTER "post_recording_stop"
      = count_log_events s CALL_LOG_TYPE_ENDPOINTER "post_recording_stop"
        + (if call_log_enabled_for_pvt s then 1 else 0) ∧
    call_log_enabled_for_pvt (gdf_stop_recognition s) = call_log_enabled_for_pvt s := by
  unfold gdf_stop_recognition close_preendpointed_audio_recording
    close_postendpointed_audio_recording write_end_of_recognition_call_event
    gdf_log_call_event call_log_enabled_for_pvt count_log_events
  dsimp only
  by_cases h1 : s.config.enable_call_logs = true <;>
  by_cases h2 : s.pvt.call_log_file_handle = true <;>
  by_cases h3 : s.pvt.utterance_preendpointer_recording_file_handle = true <;>
  by_cases h4 : s.pvt.utterance_postendpointer_recording_file_handle = true <;>
    simp_all [List.count_append]

/-- Session with call logging active, the pre-endpoint recording open (it
was opened once) and the post-endpoint recording never opened, for the C9
counterexample. -/
def c9_session : GdfSession :=
  { default_session with
      pvt :=
        { default_pvt with
            call_log_file_handle := true,
            utterance_preendpointer_recording_open_already_attempted := true,
            utterance_preendpointer_recording_file_handle := true },
      config := { default_config with enable_call_logs := true } }

/-- C9 counterexample: finalizing twice `fclose`s the pre-endpoint handle
only once, but appends `pre_recording_stop` TWICE (not once per opened
file) and appends `post_recording_stop` twice although no post-endpoint
file was ever opened. -/
theorem c9_counterexample_stop_events_not_once_per_open :
    (gdf_stop_recognition (gdf_stop_recognition c9_session)).pre_fclose_count = 1 ∧
    count_log_events (gdf_stop_recognition (gdf_stop_recognition c9_session))
      CALL_LOG_TYPE_ENDPOINTER "pre_recording_stop" = 2 ∧
    count_log_events (gdf_stop_recognition (gdf_stop_recognition c9_session))
      CALL_LOG_TYPE_ENDPOINTER "post_recording_stop" = 2 ∧
    c9_session.pvt.utterance_postendpointer_recording_file_handle = false ∧
    (2 : Nat) ≠ 1 ∧ (2 : Nat) ≠ 0 := by
  decide

/-- C9 (amended): finalizing twice closes each recording file handle at
most once — one `fclose` exactly when the handle was open, none on the
second call — but the recording-stop call-log events are appended once per
finalize invocation while the call log is active (twice here), regardless
of whether the recording file was ever opened. -/
theorem c9_amended_double_finalize_closes_once (s : GdfSession) :
    (gdf_stop_recognition (gdf_stop_recognition s)).pre_fclose_count
      = s.pre_fclose_count
        + (if s.pvt.utterance_preendpointer_recording_file_handle then 1 else 0) ∧
    (gdf_stop_recognition (gdf_stop_recognition s)).post_fclose_count
      = s.post_fclose_count
        + (if s.pvt.utterance_postendpointer_recording_file_handle then 1 else 0) ∧
    count_log_events (gdf_stop_recognition (gdf_stop_recognition s))
        CALL_LOG_TYPE_ENDPOINTER "pre_recording_stop"
      = count_log_events s CALL_LOG_TYPE_ENDPOINTER "pre_recording_stop"
        + (if call_log_enabled_for_pvt s then 2 else 0) ∧
    count_log_events (gdf_stop_recognition (gdf_stop_recognition s))
        CALL_LOG_TYPE_ENDPOINTER "post_recording_stop"
      = count_log_events s CALL_LOG_TYPE_ENDPOINTER "post_recording_stop"
        + (if call_log_enabled_for_pvt s then 2 else 0) := by
  obtain ⟨g1, g2, g3, g4, g5, g6, g7, g8, g9, g10, g11, g12, g13, g14, g15, g16⟩ :=
    gdf_stop_recognition_effects s
  obtain ⟨f1, f2, f3, f4, f5, f6, f7, f8, f9, f10, f11, f12, f13, f14, f15, f16⟩ :=
    gdf_stop_recognition_effects (gdf_stop_recognition s)
  obtain ⟨c1, c2, c3⟩ := gdf_stop_recognition_counts s
  obtain ⟨d1, d2, d3⟩ := gdf_stop_recognition_counts (gdf_stop_recognition s)
  refine ⟨?_, ?_, ?_, ?_⟩
  · rw [f5, g2, g5]
    simp
  · rw [f6, g3, g6]
    simp
  · rw [d1, c1, c3]
    by_cases h : call_log_enabled_for_pvt s = true <;> simp [h]
  · rw [d2, c2, c3]
    by_cases h : call_log_enabled_for_pvt s = true <;> simp [h]

/-- The `voice_threshold` branch of the `gdf_change` dispatch, exposed. -/
theorem gdf_change_voice_threshold_eq (pvt : gdf_pvt) (value : String) :
    gdf_change pvt VAD_PROP_VOICE_THRESHOLD value
      = if value == "" then (-1, pvt)
        else
          match sscanf_d value with
          | some i => (0, { pvt with voice_threshold := i })
          | none => (-1, pvt) := rfl

/-- The `voice_duration` branch of the `gdf_change` dispatch, exposed. -/
theorem gdf_change_voice_duration_eq (pvt : gdf_pvt) (value : String) :
    gdf_change pvt VAD_PROP_VOICE_DURATION value
      = if value == "" then (-1, pvt)
        else
          match sscanf_d value with
          | some i => (0, { pvt with voice_minimum_duration := i })
          | none => (-1, pvt) := rfl

/-- The `silence_duration` branch of the `gdf_change` dispatch, exposed. -/
theorem gdf_change_silence_duration_eq (pvt : gdf_pvt) (value : String) :
    gdf_change pvt VAD_PROP_SILENCE_DURATION value
      = if value == "" then (-1, pvt)
        else
          match sscanf_d value with
          | some i => (0, { pvt with silence_minimum_duration := i })
          | none => (-1, pvt) := rfl

/-- C8: for each of the three VAD tunables, `gdf_change` with an empty or
unparseable (per `sscanf("%d")`) value returns -1 and leaves the whole pvt
— in particular the stored tunable — unchanged; only a successfully parsed
value replaces the targeted tunable (and changes nothing else). -/
theorem c8_vad_tunables_validated (pvt : gdf_pvt) (value : String) :
    ((value = "" ∨ sscanf_d value = none) →
      gdf_change pvt VAD_PROP_VOICE_THRESHOLD value = (-1, pvt) ∧
      gdf_change pvt VAD_PROP_VOICE_DURATION value = (-1, pvt) ∧
      gdf_change pvt VAD_PROP_SILENCE_DURATION value = (-1, pvt)) ∧
    (∀ i, sscanf_d value = some i →
      gdf_change pvt VAD_PROP_VOICE_THRESHOLD value
        = (0, { pvt with voice_threshold := i }) ∧
      gdf_change pvt VAD_PROP_VOICE_DURATION value
        = (0, { pvt with voice_minimum_duration := i }) ∧
      gdf_change pvt VAD_PROP_SILENCE_DURATION value
        = (0, { pvt with silence_minimum_duration := i })) := by
  constructor
  · rintro (rfl | hn)
    · exact ⟨rfl, rfl, rfl⟩
    · refine ⟨?_, ?_, ?_⟩ <;>
        [rw [gdf_change_voice_threshold_eq]; rw [gdf_change_voice_duration_eq];
          rw [gdf_change_silence_duration_eq]] <;>
        by_cases hv : value == "" <;>
        simp [hv, hn]
  · intro i hi
    have hv : (value == "") = false := by
      cases hveq : value == ""
      · rfl
      · exfalso
        have hve : value = "" := by simpa using hveq
        rw [hve, show sscanf_d "" = none from by decide] at hi
        exact Option.noConfusion hi
    refine ⟨?_, ?_, ?_⟩ <;>
      [rw [gdf_change_voice_threshold_eq]; rw [gdf_change_voice_duration_eq];
        rw [gdf_change_silence_duration_eq]] <;>
      simp [hv, hi]

/-- Witness for C8 at concrete values: "abc" is rejected without touching
the pvt, "42" is stored. -/
theorem c8_vad_tunables_validated_witness :
    gdf_change default_pvt VAD_PROP_VOICE_THRESHOLD "abc" = (-1, default_pvt) ∧
    gdf_change default_pvt VAD_PROP_VOICE_THRESHOLD "42"
      = (0, { default_pvt with voice_threshold := 42 }) :=
  ⟨((c8_vad_tunables_validated default_pvt "abc").1 (Or.inr (by decide))).1,
    ((c8_vad_tunables_validated default_pvt "42").2 42 (by decide)).1⟩

/-- The per-kind open-attempt accounting invariant for C10: the call-log
open has been attempted and produced a non-empty path, and each kind of
file has seen at most one open attempt, none while its flag is still
clear.  (The non-empty path matters: with an empty `call_log_path` the
recording gate in `maybe_record_audio` never reads the flags.) -/
def open_attempt_inv (s : GdfSession) : Prop :=
  s.pvt.call_log_open_already_attempted = true ∧
  s.pvt.call_log_path ≠ "" ∧
  (s.pvt.utterance_preendpointer_recording_open_already_attempted = false →
    s.pre_open_attempts = 0) ∧
  s.pre_open_attempts ≤ 1 ∧
  (s.pvt.utterance_postendpointer_recording_open_already_attempted = false →
    s.post_open_attempts = 0) ∧
  s.post_open_attempts ≤ 1 ∧
  s.call_log_open_attempts ≤ 1

/-- With a non-empty call-log path, the recording gate reads the pvt flags,
so `maybe_record_audio` attempts an open only when the flag was clear and
sets it; the accounting invariant is preserved. -/
theorem maybe_record_audio_attempt_inv (s : GdfSession) (env : WriteEnv) (v : VAD_STATE)
    (hpath : s.pvt.call_log_path ≠ "")
    (hpre0 : s.pvt.utterance_preendpointer_recording_open_already_attempted = false →
      s.pre_open_attempts = 0)
    (hpre1 : s.pre_open_attempts ≤ 1)
    (hpost0 : s.pvt.utterance_postendpointer_recording_open_already_attempted = false →
      s.post_open_attempts = 0)
    (hpost1 : s.post_open_attempts ≤ 1) :
    ((maybe_record_audio s env v).pvt.utterance_preendpointer_recording_open_already_attempted
        = false →
      (maybe_record_audio s env v).pre_open_attempts = 0) ∧
    (maybe_record_audio s env v).pre_open_attempts ≤ 1 ∧
    ((maybe_record_audio s env v).pvt.utterance_postendpointer_recording_open_already_attempted
        = false →
      (maybe_record_audio s env v).post_open_attempts = 0) ∧
    (maybe_record_audio s env v).post_open_attempts ≤ 1 := by
  have hpath' : (s.pvt.call_log_path == "") = false := by
    simpa using hpath
  unfold maybe_record_audio
  dsimp only
  rw [hpath']
  repeat' split
  all_goals
    simp_all [open_preendpointed_effects, open_postendpointed_effects]
  all_goals
    first
      | (apply hpre0; aesop)
      | (apply hpost0; aesop)

/-- `gdf_stop_recognition` preserves the open-attempt invariant (it never
touches flags, paths or open-attempt counters). -/
theorem open_attempt_inv_gdf_stop (s : GdfSession) (h : open_attempt_inv s) :
    open_attempt_inv (gdf_stop_recognition s) := by
  obtain ⟨g1, g2, g3, g4, g5, g6, g7, g8, g9, g10, g11, g12, g13, g14, g15, g16⟩ :=
    gdf_stop_recognition_effects s
  obtain ⟨i1, i2, i3, i4, i5, i6, i7⟩ := h
  exact ⟨by rw [g9]; exact i1, by rw [g11]; exact i2, by rw [g7, g14]; exact i3,
    by rw [g14]; exact i4, by rw [g8, g15]; exact i5, by rw [g15]; exact i6,
    by rw [g16]; exact i7⟩

/-- `maybe_record_audio` preserves the open-attempt invariant. -/
theorem open_attempt_inv_maybe_record (s : GdfSession) (env : WriteEnv) (v : VAD_STATE)
    (h : open_attempt_inv s) : open_attempt_inv (maybe_record_audio s env v) := by
  obtain ⟨m1, m2, m3, m4, m5, m6, m7, m8, m9, m10, m11, m12, m13, m14⟩ :=
    maybe_record_audio_effects s env v
  obtain ⟨i1, i2, i3, i4, i5, i6, i7⟩ := h
  obtain ⟨a1, a2, a3, a4⟩ := maybe_record_audio_attempt_inv s env v i2 i3 i4 i5 i6
  exact ⟨by rw [m4]; exact i1, by rw [m6]; exact i2, a1, a2, a3, a4,
    by rw [m10]; exact i7⟩

/-- `gdf_write_commit_vad` preserves the open-attempt invariant. -/
theorem open_attempt_inv_commit (s : GdfSession) (t : VadTransition)
    (h : open_attempt_inv s) : open_attempt_inv (gdf_write_commit_vad s t) := by
  obtain ⟨e1, e2, e3, e4, e5, e6, e7, e8, e9, e10, e11, e12, e13, e14, e15, e16⟩ :=
    gdf_write_commit_vad_effects s t
  obtain ⟨i1, i2, i3, i4, i5, i6, i7⟩ := h
  exact ⟨by rw [e8]; exact i1, by rw [e10]; exact i2, by rw [e6, e14]; exact i3,
    by rw [e14]; exact i4, by rw [e7, e15]; exact i5, by rw [e15]; exact i6,
    by rw [e16]; exact i7⟩

/-- The forwarding tail preserves the open-attempt invariant. -/
theorem open_attempt_inv_tail (s : GdfSession) (v : VAD_STATE) (env : WriteEnv)
    (h : open_attempt_inv s) : open_attempt_inv (gdf_write_forward_tail s v env) := by
  unfold gdf_write_forward_tail
  dsimp only
  repeat' split
  all_goals
    first
      | exact open_attempt_inv_gdf_stop _ (open_attempt_inv_maybe_record s env v h)
      | exact open_attempt_inv_maybe_record s env v h

/-- `gdf_write_forward` preserves the open-attempt invariant. -/
theorem open_attempt_inv_forward (s : GdfSession) (o v : VAD_STATE) (env : WriteEnv)
    (h : open_attempt_inv s) : open_attempt_inv (gdf_write_forward s o v env) := by
  unfold gdf_write_forward
  dsimp only
  repeat' split
  all_goals
    first
      | exact h
      | exact open_attempt_inv_tail _ v env (open_attempt_inv_gdf_stop s h)
      | exact open_attempt_inv_tail _ v env h
      | exact open_attempt_inv_maybe_record _ env v (open_attempt_inv_gdf_stop s h)
      | exact open_attempt_inv_maybe_record _ env v h
      | exact open_attempt_inv_gdf_stop s h

/-- `gdf_start` preserves the open-attempt invariant (under the invariant
the call-log open was already attempted, so `start_call_log` never runs
again). -/
theorem open_attempt_inv_start (s : GdfSession) (env : StartEnv)
    (h : open_attempt_inv s) : open_attempt_inv (gdf_start s env) := by
  have hpre : open_attempt_inv (gdf_start_prelude s env) := by
    obtain ⟨p1, p2, p3, p4, p5, p6, p7, p8, p9, p10, p11, p12, p13, p14⟩ :=
      gdf_start_prelude_effects s env
    obtain ⟨i1, i2, i3, i4, i5, i6, i7⟩ := h
    obtain ⟨q1, q2, q3⟩ := p14 i1
    exact ⟨q1, by rw [q2]; exact i2, by rw [p10, p12]; exact i3, by rw [p12]; exact i4,
      by rw [p11, p13]; exact i5, by rw [p13]; exact i6, by rw [q3]; exact i7⟩
  unfold gdf_start
  dsimp only
  repeat' split
  all_goals
    first
      | exact hpre
      | exact open_attempt_inv_gdf_stop _ hpre

/-- One operation preserves the open-attempt invariant. -/
theorem apply_op_attempt_inv (s s' : GdfSession) (op : GdfOp)
    (h : open_attempt_inv s) (happ : apply_op s op = some s') : open_attempt_inv s' := by
  cases op with
  | op_start env =>
    simp only [apply_op] at happ
    injection happ with h2
    rw [← h2]
    exact open_attempt_inv_start s env h
  | op_stop =>
    simp only [apply_op] at happ
    injection happ with h2
    rw [← h2]
    exact open_attempt_inv_gdf_stop s h
  | op_write mem len env =>
    simp only [apply_op] at happ
    unfold gdf_write at happ
    cases hav : gdf_write_avg_level mem len with
    | none => rw [hav] at happ; exact absurd happ (by simp)
    | some avg =>
      rw [hav] at happ
      injection happ with h2
      rw [← h2]
      unfold gdf_write_with_level
      exact open_attempt_inv_forward _ _ _ env
        (open_attempt_inv_commit s (gdf_write_vad_result s avg len) h)

/-- Any operation sequence preserves the open-attempt invariant. -/
theorem run_ops_attempt_inv (ops : List GdfOp) :
    ∀ s s', open_attempt_inv s → run_ops s ops = some s' → open_attempt_inv s' := by
  induction ops with
  | nil =>
    intro s s' h hr
    unfold run_ops at hr
    injection hr with h2
    rw [← h2]; exact h
  | cons op rest ih =>
    intro s s' h hr
    unfold run_ops at hr
    cases happ : apply_op s op with
    | none => rw [happ] at hr; exact absurd hr (by simp)
    | some s1 =>
      rw [happ] at hr
      exact ih s1 s' (apply_op_attempt_inv s s1 op h happ) hr

/-- The forwarding tail never clears an "already attempted" flag. -/
theorem gdf_write_forward_tail_flags (s : GdfSession) (v : VAD_STATE) (env : WriteEnv) :
    (s.pvt.utterance_preendpointer_recording_open_already_attempted = true →
      (gdf_write_forward_tail s v env).pvt.utterance_preendpointer_recording_open_already_attempted = true) ∧
    (s.pvt.utterance_postendpointer_recording_open_already_attempted = true →
      (gdf_write_forward_tail s v env).pvt.utterance_postendpointer_recording_open_already_attempted = true) ∧
    (gdf_write_forward_tail s v env).pvt.call_log_open_already_attempted
      = s.pvt.call_log_open_already_attempted := by
  unfold gdf_write_forward_tail
  dsimp only
  repeat' split
  all_goals
    simp_all [gdf_stop_recognition_effects, maybe_record_audio_effects]

/-- `gdf_write_forward` never clears an "already attempted" flag. -/
theorem gdf_write_forward_flags (s : GdfSession) (o v : VAD_STATE) (env : WriteEnv) :
    (s.pvt.utterance_preendpointer_recording_open_already_attempted = true →
      (gdf_write_forward s o v env).pvt.utterance_preendpointer_recording_open_already_attempted = true) ∧
    (s.pvt.utterance_postendpointer_recording_open_already_attempted = true →
      (gdf_write_forward s o v env).pvt.utterance_postendpointer_recording_open_already_attempted = true) ∧
    (gdf_write_forward s o v env).pvt.call_log_open_already_attempted
      = s.pvt.call_log_open_already_attempted := by
  unfold gdf_write_forward
  dsimp only
  repeat' split
  all_goals
    simp_all [gdf_write_forward_tail_flags, gdf_stop_recognition_effects,
      maybe_record_audio_effects]

/-- `gdf_start` never clears an "already attempted" flag (the call-log one
can only be set). -/
theorem gdf_start_flags (s : GdfSession) (env : StartEnv) :
    (s.pvt.utterance_preendpointer_recording_open_already_attempted = true →
      (gdf_start s env).pvt.utterance_preendpointer_recording_open_already_attempted = true) ∧
    (s.pvt.utterance_postendpointer_recording_open_already_attempted = true →
      (gdf_start s env).pvt.utterance_postendpointer_recording_open_already_attempted = true) ∧
    (s.pvt.call_log_open_already_attempted = true →
      (gdf_start s env).pvt.call_log_open_already_attempted = true) := by
  obtain ⟨p1, p2, p3, p4, p5, p6, p7, p8, p9, p10, p11, p12, p13, p14⟩ :=
    gdf_start_prelude_effects s env
  unfold gdf_start
  dsimp only
  repeat' split
  all_goals
    refine ⟨?_, ?_, ?_⟩ <;> intro hf
  all_goals
    first
      | (rw [p10]; exact hf)
      | (rw [p11]; exact hf)
      | (exact (p14 hf).1)
      | (obtain ⟨g1, g2, g3, g4, g5, g6, g7, g8, g9, g10, g11, g12, g13, g14, g15, g16⟩ :=
          gdf_stop_recognition_effects (gdf_start_prelude s env)
         first
           | (rw [g7, p10]; exact hf)
           | (rw [g8, p11]; exact hf)
           | (rw [g9]; exact (p14 hf).1))

/-- One operation never clears an "already attempted" flag. -/
theorem apply_op_flags_monotone (s s' : GdfSession) (op : GdfOp)
    (happ : apply_op s op = some s') :
    (s.pvt.utterance_preendpointer_recording_open_already_attempted = true →
      s'.pvt.utterance_preendpointer_recording_open_already_attempted = true) ∧
    (s.pvt.utterance_postendpointer_recording_open_already_attempted = true →
      s'.pvt.utterance_postendpointer_recording_open_already_attempted = true) ∧
    (s.pvt.call_log_open_already_attempted = true →
      s'.pvt.call_log_open_already_attempted = true) := by
  cases op with
  | op_start env =>
    simp only [apply_op] at happ
    injection happ with h2
    rw [← h2]
    exact gdf_start_flags s env
  | op_stop =>
    simp only [apply_op] at happ
    injection happ with h2
    rw [← h2]
    obtain ⟨g1, g2, g3, g4, g5, g6, g7, g8, g9, g10, g11, g12, g13, g14, g15, g16⟩ :=
      gdf_stop_recognition_effects s
    exact ⟨by rw [g7]; exact id, by rw [g8]; exact id, by rw [g9]; exact id⟩
  | op_write mem len env =>
    simp only [apply_op] at happ
    unfold gdf_write at happ
    cases hav : gdf_write_avg_level mem len with
    | none => rw [hav] at happ; exact absurd happ (by simp)
    | some avg =>
      rw [hav] at happ
      injection happ with h2
      rw [← h2]
      unfold gdf_write_with_level
      obtain ⟨e1, e2, e3, e4, e5, e6, e7, e8, e9, e10, e11, e12, e13, e14, e15, e16⟩ :=
        gdf_write_commit_vad_effects s (gdf_write_vad_result s avg len)
      obtain ⟨f1, f2, f3⟩ :=
        gdf_write_forward_flags (gdf_write_commit_vad s (gdf_write_vad_result s avg len))
          s.pvt.vad_state (gdf_write_vad_result s avg len).vad_state env
      refine ⟨?_, ?_, ?_⟩ <;> intro hf
      · exact f1 (by rw [e6]; exact hf)
      · exact f2 (by rw [e7]; exact hf)
      · rw [f3, e8]; exact hf

/-- An operation sequence never clears an "already attempted" flag. -/
theorem run_ops_flags_monotone (ops : List GdfOp) :
    ∀ s s', run_ops s ops = some s' →
      (s.pvt.utterance_preendpointer_recording_open_already_attempted = true →
        s'.pvt.utterance_preendpointer_recording_open_already_attempted = true) ∧
      (s.pvt.utterance_postendpointer_recording_open_already_attempted = true →
        s'.pvt.utterance_postendpointer_recording_open_already_attempted = true) ∧
      (s.pvt.call_log_open_already_attempted = true →
        s'.pvt.call_log_open_already_attempted = true) := by
  induction ops with
  | nil =>
    intro s s' hr
    unfold run_ops at hr
    injection hr with h2
    rw [← h2]
    exact ⟨id, id, id⟩
  | cons op rest ih =>
    intro s s' hr
    unfold run_ops at hr
    cases happ : apply_op s op with
    | none => rw [happ] at hr; exact absurd hr (by simp)
    | some s1 =>
      rw [happ] at hr
      obtain ⟨a1, a2, a3⟩ := apply_op_flags_monotone s s1 op happ
      obtain ⟨b1, b2, b3⟩ := ih s1 s' hr
      exact ⟨fun hf => b1 (a1 hf), fun hf => b2 (a2 hf), fun hf => b3 (a3 hf)⟩

/-- Session for the C10 counterexample: pre-endpoint recordings enabled but
call logs disabled, so `call_log_path` stays empty; the VAD commits to
SPEAK on the first loud frame. -/
def c10_session : GdfSession :=
  { default_session with
      pvt := { default_pvt with voice_threshold := 0, voice_minimum_duration := 0 },
      config := { default_config with enable_preendpointer_recordings := true } }

/-- Start environment for the C10 counterexample (no pending event, no
computed path). -/
def c10_env : StartEnv where
  recognize_event_fails := false
  computed_call_log_path := ""
  call_log_open_succeeds := false

/-- C10 counterexample: with `enable_preendpointer_recordings` on and an
empty call-log path (call logs disabled), the first SPEAK frame attempts
the pre-endpoint open and sets the flag — and the next frame attempts the
open AGAIN, because the gate never reads the flag when the path is empty.
So "no further open of that kind occurs after the first attempt" fails. -/
theorem c10_counterexample_empty_path_retries_open :
    (run_ops c10_session
        [GdfOp.op_start c10_env, GdfOp.op_write c1_frame 80 benign_env]).map
      (fun s => (s.pre_open_attempts,
        s.pvt.utterance_preendpointer_recording_open_already_attempted))
      = some (1, true) ∧
    (run_ops c10_session
        [GdfOp.op_start c10_env, GdfOp.op_write c1_frame 80 benign_env,
          GdfOp.op_write c1_frame 80 benign_env]).map
      (fun s => s.pre_open_attempts) = some 2 := by
  decide

/-- C10 (amended): the three "already attempted" flags are set before each
first open attempt and never cleared by any operation; consequently, from
any state where the call-log open has been attempted with a NON-EMPTY
computed path and the per-kind accounting holds, every operation sequence
performs at most one open attempt per kind.  (With an empty call-log path
the recording gate never consults the flags and retries the open on every
forwarded frame, which is what the counterexample exhibits.) -/
theorem c10_amended_flags_gate_opens (ops : List GdfOp) (s s' : GdfSession)
    (hinv : open_attempt_inv s) (hrun : run_ops s ops = some s') :
    s'.pre_open_attempts ≤ 1 ∧
    s'.post_open_attempts ≤ 1 ∧
    s'.call_log_open_attempts ≤ 1 ∧
    (s.pvt.utterance_preendpointer_recording_open_already_attempted = true →
      s'.pvt.utterance_preendpointer_recording_open_already_attempted = true) ∧
    (s.pvt.utterance_postendpointer_recording_open_already_attempted = true →
      s'.pvt.utterance_postendpointer_recording_open_already_attempted = true) ∧
    (s.pvt.call_log_open_already_attempted = true →
      s'.pvt.call_log_open_already_attempted = true) := by
  obtain ⟨i1, i2, i3, i4, i5, i6, i7⟩ := run_ops_attempt_inv ops s s' hinv hrun
  obtain ⟨m1, m2, m3⟩ := run_ops_flags_monotone ops s s' hrun
  exact ⟨i4, i6, i7, m1, m2, m3⟩

/-- Session for the C10 witness: call log attempted and open with a
non-empty path, recordings enabled, VAD tuned to commit SPEAK at once. -/
def c10w_session : GdfSession :=
  { default_session with
      pvt :=
        { default_pvt with
            voice_threshold := 0,
            voice_minimum_duration := 0,
            call_log_open_already_attempted := true,
            call_log_file_handle := true,
            call_log_path := "p" },
      config :=
        { enable_call_logs := true,
          enable_preendpointer_recordings := true,
          enable_postendpointer_recordings := true } }

/-- Operations for the C10 witness: one utterance start, two forwarded
frames (the first commits SPEAK and opens both recordings), one finalize. -/
def c10w_ops : List GdfOp :=
  [GdfOp.op_start c10_env,
    GdfOp.op_write c1_frame 80
      { benign_env with pre_open_succeeds := true, post_open_succeeds := true },
    GdfOp.op_write c1_frame 80
      { benign_env with pre_open_succeeds := true, post_open_succeeds := true },
    GdfOp.op_stop]

/-- Result of the C10 witness run. -/
def c10w_out : GdfSession := (run_ops c10w_session c10w_ops).getD default_session

/-- Witness for the amended C10 on a concrete four-operation run. -/
theorem c10_amended_flags_gate_opens_witness :
    c10w_out.pre_open_attempts ≤ 1 ∧
    c10w_out.post_open_attempts ≤ 1 ∧
    c10w_out.call_log_open_attempts ≤ 1 ∧
    (c10w_session.pvt.utterance_preendpointer_recording_open_already_attempted = true →
      c10w_out.pvt.utterance_preendpointer_recording_open_already_attempted = true) ∧
    (c10w_session.pvt.utterance_postendpointer_recording_open_already_attempted = true →
      c10w_out.pvt.utterance_postendpointer_recording_open_already_attempted = true) ∧
    (c10w_session.pvt.call_log_open_already_attempted = true →
      c10w_out.pvt.call_log_open_already_attempted = true) :=
  c10_amended_flags_gate_opens c10w_ops c10w_session c10w_out
    (by constructor <;> decide) (by rfl)
